import Mathlib

/-!
# trace::File and trace::File::Offset (common/trace_file.hpp)

The development has two parts, one for each source file: the namespace `trace`
for common/trace_file.hpp, described here, and the namespace `glstate` for
glstate_images.cpp, described where its definitions start. The definitions of
both parts come first, the theorems after them.

A shallow embedding of the container-file base class of the trace reader and
of its seek token.

* `trace.Offset` is the pair `(chunk, offsetInChunk)`; the five comparison
  operators are transcribed one by one from the header.
* `trace.File` is the base-class state: the flag `m_isOpened`, the state of the
  backend subclass, and a ghost log of every backend hook that was invoked.
  The pure virtual hooks (`rawOpen`, `rawRead`, ...) are a record of functions
  over the members a subclass can reach, so every statement below is about the
  template methods of the base class, for an arbitrary backend. The hooks are
  total; they act on the backend state and may assign the protected member
  `m_isOpened`.
* `size_t` and `int` values are naturals and integers; no method of the header
  does arithmetic on them, so no wrap-around can occur.
-/

namespace trace

/-! ## File::Offset -/

/-- Seek token `File::Offset`: `chunk` is a `uint64_t`, `offsetInChunk` a
`uint32_t`. The fields are naturals; the constructor truncates to the width. -/
structure Offset where
  chunk : Nat
  offsetInChunk : Nat
deriving DecidableEq

/-- Constructor `Offset(uint64_t _chunk = 0, uint32_t _offsetInChunk = 0)`.
An argument left out at the call site is `none` and takes the default `0`;
a supplied argument is converted to the parameter's unsigned width. -/
def Offset.ctor (_chunk : Option Nat) (_offsetInChunk : Option Nat) : Offset :=
  { chunk := (_chunk.getD 0) % 2 ^ 64
    offsetInChunk := (_offsetInChunk.getD 0) % 2 ^ 32 }

/-- Source `operator<(const File::Offset &one, const File::Offset &two)`. -/
def operator_lt (one two : Offset) : Bool :=
  decide (one.chunk < two.chunk) ||
    (decide (one.chunk = two.chunk) && decide (one.offsetInChunk < two.offsetInChunk))

/-- Source `operator==(const File::Offset &one, const File::Offset &two)`. -/
def operator_eq (one two : Offset) : Bool :=
  decide (one.chunk = two.chunk) &&
    decide (one.offsetInChunk = two.offsetInChunk)

/-- Source `operator>=(const File::Offset &one, const File::Offset &two)`. -/
def operator_ge (one two : Offset) : Bool :=
  decide (one.chunk > two.chunk) ||
    (decide (one.chunk = two.chunk) && decide (one.offsetInChunk ≥ two.offsetInChunk))

/-- Source `operator>(one, two)`, which returns `two < one`. -/
def operator_gt (one two : Offset) : Bool :=
  operator_lt two one

/-- Source `operator<=(one, two)`, which returns `two >= one`. -/
def operator_le (one two : Offset) : Bool :=
  operator_ge two one

/-! ## File -/

/-- One invocation of a backend hook, with its arguments and its result. -/
inductive RawCall where
  | rawOpen (filename : String) (result : Bool)
  | rawRead (length : Nat) (result : Nat)
  | rawGetc (result : Int)
  | rawClose
  | rawSkip (length : Nat) (result : Bool)
  | rawPercentRead (result : Int)
deriving DecidableEq

/-- What a backend hook works on. The hooks are member functions of the
subclass: they see the subclass state `raw` and the member `m_isOpened`, which
the base class declares `protected`, so a hook can read and assign it. -/
structure Members (σ : Type) where
  m_isOpened : Bool
  raw : σ

/-- The pure virtual hooks of `File`, as functions over the members a hook can
reach. A buffer is the list of bytes behind the `void *`; `rawRead` returns
the new buffer contents and the `size_t` it reports. -/
structure Backend (σ : Type) where
  rawOpen : Members σ → String → Members σ × Bool
  rawRead : Members σ → List Nat → Nat → Members σ × List Nat × Nat
  rawGetc : Members σ → Members σ × Int
  rawClose : Members σ → Members σ
  rawSkip : Members σ → Nat → Members σ × Bool
  rawPercentRead : Members σ → Members σ × Int

/-- State of a `File` object: the member `m_isOpened`, the backend's own
state, and the ghost log of backend hooks invoked so far (oldest first). -/
structure File (σ : Type) where
  m_isOpened : Bool
  raw : σ
  log : List RawCall

variable {σ : Type}

/-- The members of the object as a hook finds them. -/
def File.members (f : File σ) : Members σ :=
  { m_isOpened := f.m_isOpened, raw := f.raw }

/-- Source `File::isOpened`. -/
def File.isOpened (f : File σ) : Bool :=
  f.m_isOpened

/-- Source `File::close`: `if (m_isOpened) { rawClose(); m_isOpened = false; }`.
The assignment comes after the hook, so it overrides what the hook left in
`m_isOpened`. -/
def File.close (B : Backend σ) (f : File σ) : File σ :=
  if f.m_isOpened then
    let m := B.rawClose f.members
    { m_isOpened := false
      raw := m.raw
      log := f.log ++ [RawCall.rawClose] }
  else
    f

/-- Source `File::open`: close first when already open, then
`m_isOpened = rawOpen(filename); return m_isOpened;`. The assignment comes
after the hook, so it overrides what the hook left in `m_isOpened`. -/
def File.open_ (B : Backend σ) (f : File σ) (filename : String) : Bool × File σ :=
  let f1 := if f.m_isOpened then File.close B f else f
  let r := B.rawOpen f1.members filename
  let f2 : File σ :=
    { m_isOpened := r.2
      raw := r.1.raw
      log := f1.log ++ [RawCall.rawOpen filename r.2] }
  (f2.m_isOpened, f2)

/-- Source `File::read`: `0` when closed, else `rawRead(buffer, length)`.
Returns the byte count, the buffer afterwards and the new state; the members
are as the hook left them. -/
def File.read (B : Backend σ) (f : File σ) (buffer : List Nat) (length : Nat) :
    Nat × List Nat × File σ :=
  if !f.m_isOpened then
    (0, buffer, f)
  else
    let r := B.rawRead f.members buffer length
    (r.2.2, r.2.1,
      { m_isOpened := r.1.m_isOpened
        raw := r.1.raw
        log := f.log ++ [RawCall.rawRead length r.2.2] })

/-- Source `File::percentRead`: `0` when closed, else `rawPercentRead()`. -/
def File.percentRead (B : Backend σ) (f : File σ) : Int × File σ :=
  if !f.m_isOpened then
    (0, f)
  else
    let r := B.rawPercentRead f.members
    (r.2,
      { m_isOpened := r.1.m_isOpened
        raw := r.1.raw
        log := f.log ++ [RawCall.rawPercentRead r.2] })

/-- Source `File::getc`: `-1` when closed, else `rawGetc()`. -/
def File.getc (B : Backend σ) (f : File σ) : Int × File σ :=
  if !f.m_isOpened then
    (-1, f)
  else
    let r := B.rawGetc f.members
    (r.2,
      { m_isOpened := r.1.m_isOpened
        raw := r.1.raw
        log := f.log ++ [RawCall.rawGetc r.2] })

/-- Source `File::skip`: `false` when closed, else `rawSkip(length)`. -/
def File.skip (B : Backend σ) (f : File σ) (length : Nat) : Bool × File σ :=
  if !f.m_isOpened then
    (false, f)
  else
    let r := B.rawSkip f.members length
    (r.2,
      { m_isOpened := r.1.m_isOpened
        raw := r.1.raw
        log := f.log ++ [RawCall.rawSkip length r.2] })

/-- A backend whose read-family hooks (`rawRead`, `rawGetc`, `rawSkip`,
`rawPercentRead`) leave `m_isOpened` as they found it. Nothing is asked of
`rawOpen` and `rawClose`: the base class assigns the flag after each. -/
def Backend.keepsFlag (B : Backend σ) : Prop :=
  (∀ m buffer length, (B.rawRead m buffer length).1.m_isOpened = m.m_isOpened) ∧
  (∀ m, (B.rawGetc m).1.m_isOpened = m.m_isOpened) ∧
  (∀ m length, (B.rawSkip m length).1.m_isOpened = m.m_isOpened) ∧
  (∀ m, (B.rawPercentRead m).1.m_isOpened = m.m_isOpened)

/-! ## Sequences of public calls -/

/-- A call of one of the public non-virtual methods of `File`. -/
inductive Call where
  | open_ (filename : String)
  | close
  | read (buffer : List Nat) (length : Nat)
  | getc
  | skip (length : Nat)
  | percentRead
deriving DecidableEq

/-- The state after one public call (the returned value is dropped). -/
def File.step (B : Backend σ) (f : File σ) : Call → File σ
  | Call.open_ filename => (File.open_ B f filename).2
  | Call.close => File.close B f
  | Call.read buffer length => (File.read B f buffer length).2.2
  | Call.getc => (File.getc B f).2
  | Call.skip length => (File.skip B f length).2
  | Call.percentRead => (File.percentRead B f).2

/-- The state after a finite sequence of public calls, in order. -/
def File.run (B : Backend σ) (f : File σ) (calls : List Call) : File σ :=
  calls.foldl (File.step B) f

/-- Ownership of the backing storage along a log of backend hooks: starting
from `held`, a `rawOpen` is only legal while the storage is not held and makes
it held exactly when it succeeds, a `rawClose` is only legal while it is held
and releases it; the other hooks leave it alone. `none` is a violation. -/
def ownership : Bool → List RawCall → Option Bool
  | held, [] => some held
  | held, RawCall.rawOpen _ result :: rest =>
      if held then none else ownership result rest
  | held, RawCall.rawClose :: rest =>
      if held then ownership false rest else none
  | held, RawCall.rawRead _ _ :: rest => ownership held rest
  | held, RawCall.rawGetc _ :: rest => ownership held rest
  | held, RawCall.rawSkip _ _ :: rest => ownership held rest
  | held, RawCall.rawPercentRead _ :: rest => ownership held rest

/-- A log entry that is some `rawOpen`, successful or not. -/
def RawCall.isOpen : RawCall → Bool
  | RawCall.rawOpen _ _ => true
  | _ => false

/-! ## Two concrete backends, used to instantiate the statements -/

/-- State of the in-memory backend: the bytes of the open file and the cursor. -/
structure MemState where
  data : List Nat
  pos : Nat
deriving DecidableEq

/-- An in-memory store-raw backend: the file called `filename` holds the
character codes of its own name, and the empty name cannot be opened. Reads
deliver the bytes from the cursor on and never more than asked for. No hook
assigns `m_isOpened`. -/
def memBackend : Backend MemState where
  rawOpen := fun m filename =>
    ({ m with raw := { data := filename.data.map Char.toNat, pos := 0 } },
      decide (filename.data ≠ []))
  rawRead := fun m buffer length =>
    let got := (m.raw.data.drop m.raw.pos).take length
    ({ m with raw := { m.raw with pos := m.raw.pos + got.length } },
      got ++ buffer.drop got.length, got.length)
  rawGetc := fun m =>
    match m.raw.data.get? m.raw.pos with
    | some b => ({ m with raw := { m.raw with pos := m.raw.pos + 1 } }, (b : Int))
    | none => (m, -1)
  rawClose := fun m => { m with raw := { data := [], pos := 0 } }
  rawSkip := fun m length =>
    if m.raw.pos + length ≤ m.raw.data.length then
      ({ m with raw := { m.raw with pos := m.raw.pos + length } }, true)
    else ({ m with raw := { m.raw with pos := m.raw.data.length } }, false)
  rawPercentRead := fun m =>
    (m, if m.raw.data.length = 0 then 100
      else ((100 * m.raw.pos / m.raw.data.length : Nat) : Int))

/-- A backend whose `rawRead` reports one byte more than it was asked for.
It is a well-typed implementation of the hooks (`size_t rawRead(void *, size_t)`). -/
def overBackend : Backend Unit where
  rawOpen := fun m _ => (m, true)
  rawRead := fun m buffer length => (m, buffer, length + 1)
  rawGetc := fun m => (m, -1)
  rawClose := fun m => m
  rawSkip := fun m _ => (m, false)
  rawPercentRead := fun m => (m, 0)

/-- A backend over an empty stream whose `rawGetc`, on reaching the end of the
stream, marks the object closed by assigning the protected member
`m_isOpened` itself. It is a well-typed implementation of the hooks. -/
def eofBackend : Backend Unit where
  rawOpen := fun m _ => (m, true)
  rawRead := fun m buffer _ => (m, buffer, 0)
  rawGetc := fun m => ({ m with m_isOpened := false }, -1)
  rawClose := fun m => m
  rawSkip := fun m _ => (m, false)
  rawPercentRead := fun m => (m, 100)

/-- A closed instance over the in-memory backend with nothing logged. -/
def memClosed : File MemState :=
  { m_isOpened := false, raw := { data := [], pos := 0 }, log := [] }

/-- An open instance over the in-memory backend, positioned at the start of
the three bytes `[7, 8, 9]`. -/
def memOpened : File MemState :=
  { m_isOpened := true, raw := { data := [7, 8, 9], pos := 0 }, log := [] }

end trace

/-!
# glstate: texture and framebuffer dumps (glstate_images.cpp)

The functions of `glstate_images.cpp` are embedded over two collaborators that
are not part of that file:

* the JSON sink (`JSONWriter`, json.hpp) is the list of the calls made on it,
  oldest first, so statements about the structured record are statements
  about that call sequence;
* the OpenGL library is a state record `GLState` with the entry points the
  file calls, following the OpenGL specification: bindings, the error flag,
  object names, and what each query stores through its pointer argument (on
  an error a query leaves the pointee as it was, so each query takes the old
  value of the variable and returns the new one).

`GLint`, `GLuint` and `GLenum` are integers; the file increments counters and
adds small offsets to enumerants only, far from the 32-bit range. The one
place where the range matters is the element count of a pixel buffer,
`new GLubyte[width*height*channels]`, an `int` product: it is taken with
32-bit wrap-around, and the allocation throws when the count is negative or
the allocator refuses it. A dump function therefore ends in an `Outcome`:
it returns; or it is left by the exception at an allocation with the sink as
it was then (nothing in the file catches it); or a product left the `int`
range and wrapped to a count that the allocator granted, so that the buffer is
smaller than the image read into it, and what happens from there on is
`undefined`. The contents of a buffer are the bytes the readback delivers.
The warnings written to `std::cerr` are not part of the state. The two loops
without a bound in the source carry fuel: the loop over the texture levels
ends in `outOfFuel` when the fuel runs out, and the loop that drains the GL
error flag is shown to end for every fuel from 2 on.
-/

namespace glstate

abbrev GLenum := Int
abbrev GLint := Int

/-! ## Enumerants (values of the OpenGL registry) -/

abbrev GL_NONE : GLenum := 0
abbrev GL_NO_ERROR : GLenum := 0
abbrev GL_INVALID_ENUM : GLenum := 0x0500
abbrev GL_INVALID_VALUE : GLenum := 0x0501
abbrev GL_INVALID_OPERATION : GLenum := 0x0502
abbrev GL_FRONT : GLenum := 0x0404
abbrev GL_BACK : GLenum := 0x0405
abbrev GL_DRAW_BUFFER : GLenum := 0x0C01
abbrev GL_READ_BUFFER : GLenum := 0x0C02
abbrev GL_DEPTH_BITS : GLenum := 0x0D56
abbrev GL_STENCIL_BITS : GLenum := 0x0D57
abbrev GL_TEXTURE_1D : GLenum := 0x0DE0
abbrev GL_TEXTURE_2D : GLenum := 0x0DE1
abbrev GL_TEXTURE_WIDTH : GLenum := 0x1000
abbrev GL_TEXTURE_HEIGHT : GLenum := 0x1001
abbrev GL_TEXTURE_INTERNAL_FORMAT : GLenum := 0x1003
abbrev GL_UNSIGNED_BYTE : GLenum := 0x1401
abbrev GL_TEXTURE : GLenum := 0x1702
abbrev GL_STENCIL_INDEX : GLenum := 0x1901
abbrev GL_DEPTH_COMPONENT : GLenum := 0x1902
abbrev GL_RGB : GLenum := 0x1907
abbrev GL_RGBA : GLenum := 0x1908
abbrev GL_NEAREST : GLenum := 0x2600
abbrev GL_DEPTH_BUFFER_BIT : GLenum := 0x0100
abbrev GL_STENCIL_BUFFER_BIT : GLenum := 0x0400
abbrev GL_COLOR_BUFFER_BIT : GLenum := 0x4000
abbrev GL_TEXTURE_BINDING_1D : GLenum := 0x8068
abbrev GL_TEXTURE_BINDING_2D : GLenum := 0x8069
abbrev GL_TEXTURE_BINDING_3D : GLenum := 0x806A
abbrev GL_TEXTURE_3D : GLenum := 0x806F
abbrev GL_TEXTURE_DEPTH : GLenum := 0x8071
abbrev GL_FRAMEBUFFER_ATTACHMENT_ALPHA_SIZE : GLenum := 0x8215
abbrev GL_DEPTH_STENCIL_ATTACHMENT : GLenum := 0x821A
abbrev GL_TEXTURE0 : GLenum := 0x84C0
abbrev GL_ACTIVE_TEXTURE : GLenum := 0x84E0
abbrev GL_TEXTURE_RECTANGLE : GLenum := 0x84F5
abbrev GL_TEXTURE_BINDING_RECTANGLE : GLenum := 0x84F6
abbrev GL_TEXTURE_CUBE_MAP : GLenum := 0x8513
abbrev GL_TEXTURE_BINDING_CUBE_MAP : GLenum := 0x8514
abbrev GL_TEXTURE_CUBE_MAP_POSITIVE_X : GLenum := 0x8515
abbrev GL_MAX_DRAW_BUFFERS : GLenum := 0x8824
abbrev GL_DRAW_BUFFER0 : GLenum := 0x8825
abbrev GL_MAX_TEXTURE_COORDS : GLenum := 0x8871
abbrev GL_MAX_COMBINED_TEXTURE_IMAGE_UNITS : GLenum := 0x8B4D
abbrev GL_DRAW_FRAMEBUFFER_BINDING : GLenum := 0x8CA6
abbrev GL_RENDERBUFFER_BINDING : GLenum := 0x8CA7
abbrev GL_READ_FRAMEBUFFER : GLenum := 0x8CA8
abbrev GL_DRAW_FRAMEBUFFER : GLenum := 0x8CA9
abbrev GL_READ_FRAMEBUFFER_BINDING : GLenum := 0x8CAA
abbrev GL_RENDERBUFFER_SAMPLES : GLenum := 0x8CAB
abbrev GL_FRAMEBUFFER_ATTACHMENT_OBJECT_TYPE : GLenum := 0x8CD0
abbrev GL_FRAMEBUFFER_ATTACHMENT_OBJECT_NAME : GLenum := 0x8CD1
abbrev GL_FRAMEBUFFER_ATTACHMENT_TEXTURE_LEVEL : GLenum := 0x8CD2
abbrev GL_MAX_COLOR_ATTACHMENTS : GLenum := 0x8CDF
abbrev GL_COLOR_ATTACHMENT0 : GLenum := 0x8CE0
abbrev GL_DEPTH_ATTACHMENT : GLenum := 0x8D00
abbrev GL_STENCIL_ATTACHMENT : GLenum := 0x8D20
abbrev GL_FRAMEBUFFER : GLenum := 0x8D40
abbrev GL_RENDERBUFFER : GLenum := 0x8D41
abbrev GL_RENDERBUFFER_WIDTH : GLenum := 0x8D42
abbrev GL_RENDERBUFFER_HEIGHT : GLenum := 0x8D43
abbrev GL_RENDERBUFFER_INTERNAL_FORMAT : GLenum := 0x8D44

/-! ## The JSON sink -/

/-- One call on the `JSONWriter` sink. -/
inductive JsonCall where
  | beginMember (name : String)
  | endMember
  | beginObject
  | endObject
  | writeStringMember (name : String) (value : String)
  | writeNumberMember (name : String) (value : Int)
  | writeBoolMember (name : String) (value : Bool)
  | writeBase64 (bytes : List Nat)
deriving DecidableEq

/-- The sink `JSONWriter &json`: the calls made on it so far, oldest first. -/
abbrev JSONWriter := List JsonCall

def JSONWriter.beginMember (json : JSONWriter) (name : String) : JSONWriter :=
  json ++ [JsonCall.beginMember name]

def JSONWriter.endMember (json : JSONWriter) : JSONWriter :=
  json ++ [JsonCall.endMember]

def JSONWriter.beginObject (json : JSONWriter) : JSONWriter :=
  json ++ [JsonCall.beginObject]

def JSONWriter.endObject (json : JSONWriter) : JSONWriter :=
  json ++ [JsonCall.endObject]

def JSONWriter.writeStringMember (json : JSONWriter) (name value : String) : JSONWriter :=
  json ++ [JsonCall.writeStringMember name value]

def JSONWriter.writeNumberMember (json : JSONWriter) (name : String) (value : Int) :
    JSONWriter :=
  json ++ [JsonCall.writeNumberMember name value]

def JSONWriter.writeBoolMember (json : JSONWriter) (name : String) (value : Bool) :
    JSONWriter :=
  json ++ [JsonCall.writeBoolMember name value]

def JSONWriter.writeBase64 (json : JSONWriter) (bytes : List Nat) : JSONWriter :=
  json ++ [JsonCall.writeBase64 bytes]

/-- What a `begin...` call leaves open on the sink. -/
inductive Frame where
  | member
  | object
deriving DecidableEq

/-- The nesting discipline of the sink: `beginMember` and `beginObject` open a
frame, `endMember` and `endObject` close the innermost frame and must match
its kind, the `write...` calls open nothing. The result is the stack of open
frames after the calls (innermost first), or `none` when an `end...` call
does not match. -/
def nesting : List Frame → List JsonCall → Option (List Frame)
  | st, [] => some st
  | st, JsonCall.beginMember _ :: rest => nesting (Frame.member :: st) rest
  | st, JsonCall.beginObject :: rest => nesting (Frame.object :: st) rest
  | Frame.member :: st, JsonCall.endMember :: rest => nesting st rest
  | _, JsonCall.endMember :: _ => none
  | Frame.object :: st, JsonCall.endObject :: rest => nesting st rest
  | _, JsonCall.endObject :: _ => none
  | st, JsonCall.writeStringMember _ _ :: rest => nesting st rest
  | st, JsonCall.writeNumberMember _ _ :: rest => nesting st rest
  | st, JsonCall.writeBoolMember _ _ :: rest => nesting st rest
  | st, JsonCall.writeBase64 _ :: rest => nesting st rest

/-- A call sequence is well nested when every `end...` matches and nothing is
left open. -/
def wellNested (calls : List JsonCall) : Bool :=
  decide (nesting [] calls = some [])

/-! ## Collaborators outside the file -/

/-- The helpers of other translation units that the dumps call: `enumToString`
(glstate.cpp), `__gl_format_channels` (glsize.hpp) and
`image::writePixelsToBuffer` (image.hpp), the pixel encoder, which maps the
pixels, the width, the height, the channel count and the flip flag to the
encoded bytes; and the allocator behind `operator new[]`: `allocates n` says
whether it grants `n` bytes. They are parameters of the embedding. -/
structure Env where
  enumToString : GLenum → String
  gl_format_channels : GLenum → GLint
  writePixelsToBuffer : List Nat → GLint → GLint → GLint → Bool → List Nat
  allocates : Nat → Bool

/-- Source `struct ImageDesc`. -/
structure ImageDesc where
  width : GLint
  height : GLint
  depth : GLint
  internalFormat : GLint
deriving DecidableEq

/-- Source constructor `ImageDesc()`. -/
def ImageDesc.ctor : ImageDesc :=
  { width := 0, height := 0, depth := 0, internalFormat := GL_NONE }

/-- Source `ImageDesc::valid`. -/
def ImageDesc.valid (desc : ImageDesc) : Bool :=
  decide (desc.width > 0) && decide (desc.height > 0) && decide (desc.depth > 0)

/-! ## The OpenGL state -/

/-- State of one renderbuffer object. -/
structure Renderbuffer where
  width : GLint
  height : GLint
  internalFormat : GLint
  samples : GLint
deriving DecidableEq

/-- The part of the OpenGL context state (and of the window system) that the
file reads or writes. Object names are integers, `0` is no object or the
default framebuffer.

* `textureBinding unit target` is the texture bound to `target` on `unit`;
  `textureTarget name` is the target a texture object was first bound to
  (`GL_NONE` while it has none); `targetSupported` and `textureNameUsable`
  say which targets and names `glBindTexture` accepts.
* `texLevel name target level` holds the level parameters, `maxLevel` the
  largest level the implementation accepts.
* `attachment fbo attachment pname` is what
  `glGetFramebufferAttachmentParameteriv` reports, `none` for a combination it
  rejects.
* `readBuffer` and `drawBuffer` are per framebuffer; `readBufferValid` and
  `drawBufferValid` say which selections the framebuffer accepts.
* `intParam` holds the remaining integer queries (implementation limits,
  `GL_DEPTH_BITS`, ...), `none` for an enumerant the context rejects.
* `texImage` and `pixels` are the bytes `glGetTexImage` and `glReadPixels`
  deliver. Pixel contents are not tracked: blits and storage allocation leave
  both fields alone.
* `drawableBounds` is the size of the current drawable as the window system
  reports it, `none` when it cannot be queried. -/
structure GLState where
  ES : Bool
  error : GLenum
  activeTexture : GLenum
  enabled : GLenum → GLenum → Bool
  textureBinding : GLenum → GLenum → GLint
  textureTarget : GLint → GLenum
  textureNameUsable : GLint → Bool
  targetSupported : GLenum → Bool
  maxLevel : GLint
  texLevel : GLint → GLenum → GLint → ImageDesc
  texImage : GLint → GLenum → GLint → List Nat
  renderbufferBinding : GLint
  renderbufferNames : List GLint
  renderbuffer : GLint → Renderbuffer
  readFramebuffer : GLint
  drawFramebuffer : GLint
  framebufferNames : List GLint
  attachment : GLint → GLenum → GLenum → Option GLint
  readBuffer : GLint → GLenum
  readBufferValid : GLint → GLenum → Bool
  drawBuffer : GLint → GLint → GLenum
  drawBufferValid : GLint → GLenum → Bool
  maxDrawBuffers : GLint
  intParam : GLenum → Option GLint
  pixels : GLint → GLenum → GLenum → GLint → GLint → List Nat
  packState : Int
  drawableBounds : Option (GLint × GLint)

/-- Record a GL error: the flag keeps the first error until it is queried. -/
def setError (s : GLState) (e : GLenum) : GLState :=
  if s.error = GL_NO_ERROR then { s with error := e } else s

/-- OpenGL `glGetError`: returns the flag and resets it. -/
def glGetError (s : GLState) : GLenum × GLState :=
  (s.error, { s with error := GL_NO_ERROR })

/-- The texture target whose binding a `GL_TEXTURE_BINDING_*` query returns. -/
def bindingTarget (pname : GLenum) : Option GLenum :=
  if pname = GL_TEXTURE_BINDING_1D then some GL_TEXTURE_1D
  else if pname = GL_TEXTURE_BINDING_2D then some GL_TEXTURE_2D
  else if pname = GL_TEXTURE_BINDING_3D then some GL_TEXTURE_3D
  else if pname = GL_TEXTURE_BINDING_RECTANGLE then some GL_TEXTURE_RECTANGLE
  else if pname = GL_TEXTURE_BINDING_CUBE_MAP then some GL_TEXTURE_CUBE_MAP
  else none

/-- The value of an integer state variable, `none` for an enumerant the
context rejects. -/
def getInteger (s : GLState) (pname : GLenum) : Option GLint :=
  match bindingTarget pname with
  | some target =>
    if s.targetSupported target then some (s.textureBinding s.activeTexture target)
    else none
  | none =>
    if pname = GL_ACTIVE_TEXTURE then some s.activeTexture
    else if pname = GL_RENDERBUFFER_BINDING then some s.renderbufferBinding
    else if pname = GL_DRAW_FRAMEBUFFER_BINDING then some s.drawFramebuffer
    else if pname = GL_READ_FRAMEBUFFER_BINDING then some s.readFramebuffer
    else if pname = GL_READ_BUFFER then some (s.readBuffer s.readFramebuffer)
    else if pname = GL_DRAW_BUFFER then some (s.drawBuffer s.drawFramebuffer 0)
    else if pname = GL_MAX_DRAW_BUFFERS then some s.maxDrawBuffers
    else if GL_DRAW_BUFFER0 ≤ pname ∧ pname < GL_DRAW_BUFFER0 + min s.maxDrawBuffers 16 then
      some (s.drawBuffer s.drawFramebuffer (pname - GL_DRAW_BUFFER0))
    else s.intParam pname

/-- OpenGL `glGetIntegerv(pname, &v)`: the new value of `v`; an enumerant the
context rejects raises `GL_INVALID_ENUM` and leaves `v` alone. -/
def glGetIntegerv (s : GLState) (pname : GLenum) (v : GLint) : GLint × GLState :=
  match getInteger s pname with
  | some x => (x, s)
  | none => (v, setError s GL_INVALID_ENUM)

/-- OpenGL `glIsEnabled(cap)` for a capability of the active texture unit. -/
def glIsEnabled (s : GLState) (cap : GLenum) : Bool × GLState :=
  (s.enabled s.activeTexture cap, s)

/-- Number of texture units `glActiveTexture` accepts: the larger of
`GL_MAX_COMBINED_TEXTURE_IMAGE_UNITS` and `GL_MAX_TEXTURE_COORDS`. -/
def textureUnits (s : GLState) : GLint :=
  max ((s.intParam GL_MAX_COMBINED_TEXTURE_IMAGE_UNITS).getD 0)
    ((s.intParam GL_MAX_TEXTURE_COORDS).getD 0)

/-- OpenGL `glActiveTexture(texture)`. -/
def glActiveTexture (s : GLState) (texture : GLenum) : GLState :=
  if GL_TEXTURE0 ≤ texture ∧ texture < GL_TEXTURE0 + textureUnits s then
    { s with activeTexture := texture }
  else setError s GL_INVALID_ENUM

/-- The binding point a target of a level query refers to: the one-, two- and
three-dimensional and rectangle targets themselves, the cube map for each of
its six faces; `GL_TEXTURE_CUBE_MAP` itself is not a target of level queries. -/
def levelBinding (target : GLenum) : Option GLenum :=
  if target = GL_TEXTURE_1D ∨ target = GL_TEXTURE_2D ∨ target = GL_TEXTURE_3D ∨
      target = GL_TEXTURE_RECTANGLE then some target
  else if GL_TEXTURE_CUBE_MAP_POSITIVE_X ≤ target ∧
      target < GL_TEXTURE_CUBE_MAP_POSITIVE_X + 6 then some GL_TEXTURE_CUBE_MAP
  else none

/-- OpenGL `glGetTexLevelParameteriv(target, level, pname, &v)`. -/
def glGetTexLevelParameteriv (s : GLState) (target : GLenum) (level : GLint)
    (pname : GLenum) (v : GLint) : GLint × GLState :=
  match levelBinding target with
  | none => (v, setError s GL_INVALID_ENUM)
  | some point =>
    if !s.targetSupported point then (v, setError s GL_INVALID_ENUM)
    else if level < 0 ∨ s.maxLevel < level then (v, setError s GL_INVALID_VALUE)
    else
      let d := s.texLevel (s.textureBinding s.activeTexture point) target level
      if pname = GL_TEXTURE_WIDTH then (d.width, s)
      else if pname = GL_TEXTURE_HEIGHT then (d.height, s)
      else if pname = GL_TEXTURE_DEPTH then (d.depth, s)
      else if pname = GL_TEXTURE_INTERNAL_FORMAT then (d.internalFormat, s)
      else (v, setError s GL_INVALID_ENUM)

/-- OpenGL `glGetTexImage(target, level, format, type, pixels)`: the bytes
stored through `pixels`. -/
def glGetTexImage (s : GLState) (target : GLenum) (level : GLint) (_format _type : GLenum) :
    List Nat × GLState :=
  match levelBinding target with
  | none => ([], setError s GL_INVALID_ENUM)
  | some point => (s.texImage (s.textureBinding s.activeTexture point) target level, s)

/-- The error `glBindTexture(target, texture)` raises, `GL_NO_ERROR` when the
bind is accepted: the target must be supported, the name usable, and a texture
object keeps the target it was first bound to. -/
def bindTextureError (s : GLState) (target : GLenum) (texture : GLint) : GLenum :=
  if !s.targetSupported target then GL_INVALID_ENUM
  else if texture = 0 then GL_NO_ERROR
  else if !s.textureNameUsable texture then GL_INVALID_OPERATION
  else if s.textureTarget texture ≠ GL_NONE ∧ s.textureTarget texture ≠ target then
    GL_INVALID_OPERATION
  else GL_NO_ERROR

/-- OpenGL `glBindTexture(target, texture)`: a rejected bind raises its error
and changes no binding. -/
def glBindTexture (s : GLState) (target : GLenum) (texture : GLint) : GLState :=
  if bindTextureError s target texture ≠ GL_NO_ERROR then
    setError s (bindTextureError s target texture)
  else
    { s with
      textureBinding := fun unit t =>
        if unit = s.activeTexture ∧ t = target then texture else s.textureBinding unit t
      textureTarget := fun name =>
        if name = texture ∧ texture ≠ 0 ∧ s.textureTarget texture = GL_NONE then target
        else s.textureTarget name }

/-- OpenGL `glGetRenderbufferParameteriv(target, pname, &v)`, for the
renderbuffer bound to `GL_RENDERBUFFER`. -/
def glGetRenderbufferParameteriv (s : GLState) (target pname : GLenum) (v : GLint) :
    GLint × GLState :=
  if target ≠ GL_RENDERBUFFER then (v, setError s GL_INVALID_ENUM)
  else if s.renderbufferBinding = 0 then (v, setError s GL_INVALID_OPERATION)
  else
    let rb := s.renderbuffer s.renderbufferBinding
    if pname = GL_RENDERBUFFER_WIDTH then (rb.width, s)
    else if pname = GL_RENDERBUFFER_HEIGHT then (rb.height, s)
    else if pname = GL_RENDERBUFFER_INTERNAL_FORMAT then (rb.internalFormat, s)
    else if pname = GL_RENDERBUFFER_SAMPLES then (rb.samples, s)
    else (v, setError s GL_INVALID_ENUM)

/-- OpenGL `glBindRenderbuffer(target, renderbuffer)`: the target must be
`GL_RENDERBUFFER`, any other raises `GL_INVALID_ENUM` and binds nothing. -/
def glBindRenderbuffer (s : GLState) (target : GLenum) (renderbuffer : GLint) : GLState :=
  if target ≠ GL_RENDERBUFFER then setError s GL_INVALID_ENUM
  else { s with renderbufferBinding := renderbuffer }

/-- The framebuffer a framebuffer target refers to. -/
def framebufferOf (s : GLState) (target : GLenum) : Option GLint :=
  if target = GL_FRAMEBUFFER ∨ target = GL_DRAW_FRAMEBUFFER then some s.drawFramebuffer
  else if target = GL_READ_FRAMEBUFFER then some s.readFramebuffer
  else none

/-- OpenGL `glGetFramebufferAttachmentParameteriv(target, attachment, pname, &v)`. -/
def glGetFramebufferAttachmentParameteriv (s : GLState) (target attachment pname : GLenum)
    (v : GLint) : GLint × GLState :=
  match framebufferOf s target with
  | none => (v, setError s GL_INVALID_ENUM)
  | some fbo =>
    match s.attachment fbo attachment pname with
    | some x => (x, s)
    | none => (v, setError s GL_INVALID_ENUM)

/-- OpenGL `glBindFramebuffer(target, framebuffer)`: `GL_FRAMEBUFFER` binds
both the read and the draw framebuffer. -/
def glBindFramebuffer (s : GLState) (target : GLenum) (framebuffer : GLint) : GLState :=
  if target = GL_FRAMEBUFFER then
    { s with readFramebuffer := framebuffer, drawFramebuffer := framebuffer }
  else if target = GL_READ_FRAMEBUFFER then { s with readFramebuffer := framebuffer }
  else if target = GL_DRAW_FRAMEBUFFER then { s with drawFramebuffer := framebuffer }
  else setError s GL_INVALID_ENUM

/-- OpenGL `glReadBuffer(mode)`: selects the read buffer of the framebuffer
bound for reading, when that framebuffer accepts the selection. -/
def glReadBuffer (s : GLState) (mode : GLenum) : GLState :=
  if s.readBufferValid s.readFramebuffer mode then
    { s with
      readBuffer := fun fbo => if fbo = s.readFramebuffer then mode else s.readBuffer fbo }
  else setError s GL_INVALID_ENUM

/-- OpenGL `glDrawBuffer(mode)`: selects draw buffer 0 of the framebuffer bound
for drawing, when that framebuffer accepts the selection. -/
def glDrawBuffer (s : GLState) (mode : GLenum) : GLState :=
  if s.drawBufferValid s.drawFramebuffer mode then
    { s with
      drawBuffer := fun fbo i =>
        if fbo = s.drawFramebuffer ∧ i = 0 then mode else s.drawBuffer fbo i }
  else setError s GL_INVALID_ENUM

/-- OpenGL `glReadPixels(x, y, width, height, format, type, pixels)`: the bytes
stored through `pixels`, read from the read buffer of the read framebuffer. -/
def glReadPixels (s : GLState) (_x _y width height : GLint) (format _type : GLenum) :
    List Nat × GLState :=
  if width < 0 ∨ height < 0 then ([], setError s GL_INVALID_VALUE)
  else (s.pixels s.readFramebuffer (s.readBuffer s.readFramebuffer) format width height, s)

/-- A name that is not zero and not in use: one more than the largest. -/
def freshName (names : List GLint) : GLint :=
  names.foldl max 0 + 1

/-- OpenGL `glGenFramebuffers(1, &fbo)`: the name stored through the pointer. -/
def glGenFramebuffers (s : GLState) : GLint × GLState :=
  (freshName s.framebufferNames,
    { s with framebufferNames := freshName s.framebufferNames :: s.framebufferNames })

/-- OpenGL `glGenRenderbuffers(1, &rb)`: the name stored through the pointer. -/
def glGenRenderbuffers (s : GLState) : GLint × GLState :=
  (freshName s.renderbufferNames,
    { s with renderbufferNames := freshName s.renderbufferNames :: s.renderbufferNames })

/-- OpenGL `glRenderbufferStorage(target, internalformat, width, height)`:
single-sample storage for the bound renderbuffer. -/
def glRenderbufferStorage (s : GLState) (target : GLenum) (internalformat : GLenum)
    (width height : GLint) : GLState :=
  if target ≠ GL_RENDERBUFFER then setError s GL_INVALID_ENUM
  else if s.renderbufferBinding = 0 then setError s GL_INVALID_OPERATION
  else if width < 0 ∨ height < 0 then setError s GL_INVALID_VALUE
  else
    { s with
      renderbuffer := fun name =>
        if name = s.renderbufferBinding then
          { width := width, height := height, internalFormat := internalformat, samples := 0 }
        else s.renderbuffer name }

/-- Attach renderbuffer `rb` at one attachment point of framebuffer `fbo`. -/
def attachRenderbuffer (s : GLState) (fbo : GLint) (point : GLenum) (rb : GLint) : GLState :=
  { s with
    attachment := fun f a pname =>
      if f = fbo ∧ a = point then
        if pname = GL_FRAMEBUFFER_ATTACHMENT_OBJECT_TYPE then
          some (if rb = 0 then GL_NONE else GL_RENDERBUFFER)
        else if pname = GL_FRAMEBUFFER_ATTACHMENT_OBJECT_NAME then some rb
        else s.attachment f a pname
      else s.attachment f a pname }

/-- OpenGL `glFramebufferRenderbuffer(target, attachment, renderbuffertarget,
renderbuffer)`; `GL_DEPTH_STENCIL_ATTACHMENT` sets the depth and the stencil
attachment. The default framebuffer has no attachment points. -/
def glFramebufferRenderbuffer (s : GLState) (target attachment renderbuffertarget : GLenum)
    (renderbuffer : GLint) : GLState :=
  match framebufferOf s target with
  | none => setError s GL_INVALID_ENUM
  | some fbo =>
    if renderbuffertarget ≠ GL_RENDERBUFFER then setError s GL_INVALID_ENUM
    else if fbo = 0 then setError s GL_INVALID_OPERATION
    else if attachment = GL_DEPTH_STENCIL_ATTACHMENT then
      attachRenderbuffer (attachRenderbuffer s fbo GL_DEPTH_ATTACHMENT renderbuffer)
        fbo GL_STENCIL_ATTACHMENT renderbuffer
    else attachRenderbuffer s fbo attachment renderbuffer

/-- OpenGL `glBlitFramebuffer(...)`: copies pixels from the read to the draw
framebuffer; pixel contents are not tracked, so the state is left as it is. -/
def glBlitFramebuffer (s : GLState) (_srcX0 _srcY0 _srcX1 _srcY1 : GLint)
    (_dstX0 _dstY0 _dstX1 _dstY1 : GLint) (_mask _filter : GLenum) : GLState :=
  s

/-- Delete one renderbuffer name: a name that is zero or not in use is
ignored; deleting the bound renderbuffer resets the binding to zero. -/
def deleteRenderbuffer (s : GLState) (name : GLint) : GLState :=
  if name = 0 ∨ name ∉ s.renderbufferNames then s
  else
    { s with
      renderbufferNames := s.renderbufferNames.erase name
      renderbufferBinding := if s.renderbufferBinding = name then 0 else s.renderbufferBinding }

/-- OpenGL `glDeleteRenderbuffers(n, renderbuffers)`. -/
def glDeleteRenderbuffers (s : GLState) (n : GLint) (renderbuffers : List GLint) : GLState :=
  if n < 0 then setError s GL_INVALID_VALUE
  else (renderbuffers.take n.toNat).foldl deleteRenderbuffer s

/-- Delete one framebuffer name: a name that is zero or not in use is ignored;
a binding to the deleted framebuffer reverts to the default framebuffer. -/
def deleteFramebuffer (s : GLState) (name : GLint) : GLState :=
  if name = 0 ∨ name ∉ s.framebufferNames then s
  else
    { s with
      framebufferNames := s.framebufferNames.erase name
      readFramebuffer := if s.readFramebuffer = name then 0 else s.readFramebuffer
      drawFramebuffer := if s.drawFramebuffer = name then 0 else s.drawFramebuffer }

/-- OpenGL `glDeleteFramebuffers(n, framebuffers)`. -/
def glDeleteFramebuffers (s : GLState) (n : GLint) (framebuffers : List GLint) : GLState :=
  if n < 0 then setError s GL_INVALID_VALUE
  else (framebuffers.take n.toNat).foldl deleteFramebuffer s

/-! ## Allocation of pixel buffers and how a dump ends -/

/-- The value an `int` expression has on the machine: the mathematical value
wrapped around to the 32-bit two's complement range. Wrapping the whole product
gives the same value as wrapping after each multiplication. -/
def wrapInt32 (x : Int) : GLint :=
  (x + 2147483648) % 4294967296 - 2147483648

/-- Whether `new GLubyte[count]` throws for the `int` value `count`: a negative
count converts to a `size_t` beyond any allocation, and a count that is not
negative is up to the allocator. -/
def newThrows (E : Env) (count : GLint) : Bool :=
  decide (count < 0) || !E.allocates count.toNat

/-- Whether a value lies in the range of `int`. -/
def fitsInt (x : Int) : Bool :=
  decide (-2147483648 ≤ x ∧ x ≤ 2147483647)

/-- The first of the products `acc * x1`, `acc * x1 * x2`, ..., in the order
in which `acc * x1 * x2 * ...` is evaluated, that leaves the range of `int`;
`none` when every one fits. -/
def firstOverflow : Int → List Int → Option Int
  | _, [] => none
  | acc, x :: rest => if fitsInt (acc * x) then firstOverflow (acc * x) rest else some (acc * x)

/-- How a call of a dump function ends: it returns `value`; or `new GLubyte[count]`
threw and the exception left the function, with the sink and the GL state as
they were at the allocation; or the element count of a buffer was computed
from `product`, which left the range of `int`, and the allocation was granted
for the wrapped count: the buffer is smaller than the image, and the language
does not define what reading the image into it does; or, in the embedding
only, the fuel of a loop without a bound ran out. -/
inductive Outcome (α : Type) where
  | returned (value : α)
  | threw (count : GLint) (json : JSONWriter) (gl : GLState)
  | undefined (product : Int)
  | outOfFuel

/-- Sequencing of statements: what follows a call runs only when the call
returned; an exception passes through every caller. -/
def Outcome.andThen {α β : Type} (o : Outcome α) (f : α → Outcome β) : Outcome β :=
  match o with
  | Outcome.returned a => f a
  | Outcome.threw count json gl => Outcome.threw count json gl
  | Outcome.undefined product => Outcome.undefined product
  | Outcome.outOfFuel => Outcome.outOfFuel

/-- The returned value, when the call returned. -/
def Outcome.value? {α : Type} : Outcome α → Option α
  | Outcome.returned a => some a
  | _ => none

/-- The element count and the sink at the throw, when the call threw. -/
def Outcome.thrown? {α : Type} : Outcome α → Option (GLint × JSONWriter)
  | Outcome.threw count json _ => some (count, json)
  | _ => none

/-- The product that left the range of `int`, when the call ended there. -/
def Outcome.undefined? {α : Type} : Outcome α → Option Int
  | Outcome.undefined product => some product
  | _ => none

/-! ## Context (glstate_internal.hpp) -/

/-- Modelled from the spec: `Context` is declared in glstate_internal.hpp,
which is not among the sources. It carries the flag `ES` and what the scoped
pixel-pack save/restore needs: "acquire the previous state, set the needed
state, guarantee restoration". -/
structure Context where
  ES : Bool
  savedPackState : Int

/-- Modelled from the spec: the constructor `Context()`, which reads from the
current GL context whether it is an OpenGL ES context. -/
def Context.ctor (s : GLState) : Context :=
  { ES := s.ES, savedPackState := 0 }

/-- Modelled from the spec: `Context::resetPixelPackState` saves the pixel-pack
state and sets the default one. -/
def Context.resetPixelPackState (context : Context) (s : GLState) : Context × GLState :=
  ({ context with savedPackState := s.packState }, { s with packState := 0 })

/-- Modelled from the spec: `Context::restorePixelPackState` puts the saved
pixel-pack state back. -/
def Context.restorePixelPackState (context : Context) (s : GLState) : GLState :=
  { s with packState := context.savedPackState }

/-! ## Textures -/

/-- Source `getActiveTextureLevelDesc`. -/
def getActiveTextureLevelDesc (context : Context) (target : GLenum) (level : GLint)
    (desc : ImageDesc) (s : GLState) : Bool × ImageDesc × GLState :=
  if context.ES then
    (false, desc, s)
  else
    let f := glGetTexLevelParameteriv s target level GL_TEXTURE_INTERNAL_FORMAT
      desc.internalFormat
    let desc := { desc with internalFormat := f.1 }
    let desc := { desc with width := 0 }
    let w := glGetTexLevelParameteriv f.2 target level GL_TEXTURE_WIDTH desc.width
    let desc := { desc with width := w.1 }
    if target = GL_TEXTURE_1D then
      let desc := { desc with height := 1, depth := 1 }
      (desc.valid, desc, w.2)
    else
      let desc := { desc with height := 0 }
      let h := glGetTexLevelParameteriv w.2 target level GL_TEXTURE_HEIGHT desc.height
      let desc := { desc with height := h.1 }
      if target ≠ GL_TEXTURE_3D then
        let desc := { desc with depth := 1 }
        (desc.valid, desc, h.2)
      else
        let desc := { desc with depth := 0 }
        let d := glGetTexLevelParameteriv h.2 target level GL_TEXTURE_DEPTH desc.depth
        let desc := { desc with depth := d.1 }
        (desc.valid, desc, d.2)

/-- The label `snprintf(label, sizeof label, "%s, %s, level = %d", ...)` writes
into `char label[512]`: at most 511 characters. -/
def textureLabel (E : Env) (active_texture target : GLenum) (level : GLint) : String :=
  (E.enumToString active_texture ++ ", " ++ E.enumToString target ++ ", level = " ++
    toString level).take 511

/-- Source `dumpActiveTextureLevel`. -/
def dumpActiveTextureLevel (E : Env) (json : JSONWriter) (context : Context)
    (target : GLenum) (level : GLint) (s : GLState) :
    Outcome (JSONWriter × Context × GLState) :=
  let r := getActiveTextureLevelDesc context target level ImageDesc.ctor s
  if !r.1 then
    Outcome.returned (json, context, r.2.2)
  else
    let desc := r.2.1
    let a := glGetIntegerv r.2.2 GL_ACTIVE_TEXTURE GL_TEXTURE0
    let label := textureLabel E a.1 target level
    let json := json.beginMember label
    let json := json.beginObject
    let json := json.writeStringMember "__class__" "image"
    let json := json.writeNumberMember "__width__" desc.width
    let json := json.writeNumberMember "__height__" desc.height
    let json := json.writeNumberMember "__depth__" desc.depth
    let json := json.writeStringMember "__format__" (E.enumToString desc.internalFormat)
    let json := json.writeStringMember "__type__" "uint8"
    let json := json.writeBoolMember "__normalized__" true
    let json := json.writeNumberMember "__channels__" 4
    let count := wrapInt32 (desc.depth * desc.width * desc.height * 4)
    if newThrows E count then
      Outcome.threw count json a.2
    else
      match firstOverflow desc.depth [desc.width, desc.height, 4] with
      | some product => Outcome.undefined product
      | none =>
        let p := context.resetPixelPackState a.2
        let g := glGetTexImage p.2 target level GL_RGBA GL_UNSIGNED_BYTE
        let s := p.1.restorePixelPackState g.2
        let json := json.beginMember "__data__"
        let pngBuffer := E.writePixelsToBuffer g.1 desc.width desc.height 4 true
        let json := json.writeBase64 pngBuffer
        let json := json.endMember
        let json := json.endObject
        Outcome.returned (json, p.1, s)

/-- The loop `for (int face = 0; face < 6; ++face)` of `dumpTexture`, over the
faces still to do. -/
def dumpCubeFaces (E : Env) (level : GLint) :
    List GLint → JSONWriter × Context × GLState → Outcome (JSONWriter × Context × GLState)
  | [], w => Outcome.returned w
  | face :: rest, w =>
    (dumpActiveTextureLevel E w.1 w.2.1 (GL_TEXTURE_CUBE_MAP_POSITIVE_X + face) level
      w.2.2).andThen (dumpCubeFaces E level rest)

/-- The loop `do { ... ++level; } while(true)` of `dumpTexture`, which the
`break` on an invalid level ends. `outOfFuel` when the fuel runs out first. -/
def dumpTextureLevels (E : Env) (target : GLenum) :
    Nat → GLint → JSONWriter × Context × GLState → Outcome (JSONWriter × Context × GLState)
  | 0, _, _ => Outcome.outOfFuel
  | fuel + 1, level, w =>
    let r := getActiveTextureLevelDesc w.2.1 target level ImageDesc.ctor w.2.2
    if !r.1 then
      Outcome.returned (w.1, w.2.1, r.2.2)
    else
      let w1 :=
        if target = GL_TEXTURE_CUBE_MAP then
          dumpCubeFaces E level [0, 1, 2, 3, 4, 5] (w.1, w.2.1, r.2.2)
        else
          dumpActiveTextureLevel E w.1 w.2.1 target level r.2.2
      w1.andThen (dumpTextureLevels E target fuel (level + 1))

/-- Source `dumpTexture`. -/
def dumpTexture (E : Env) (fuel : Nat) (json : JSONWriter) (context : Context)
    (target binding : GLenum) (s : GLState) : Outcome (JSONWriter × Context × GLState) :=
  let b := glGetIntegerv s binding 0
  let e := glIsEnabled b.2 target
  if !e.1 && b.1 = 0 then
    Outcome.returned (json, context, e.2)
  else
    dumpTextureLevels E target fuel 0 (json, context, e.2)

/-- The body of the loop over the texture units in `dumpTextures`. -/
def dumpTextureUnit (E : Env) (fuel : Nat) (unit : GLint)
    (w : JSONWriter × Context × GLState) : Outcome (JSONWriter × Context × GLState) :=
  let texture := GL_TEXTURE0 + unit
  let s := glActiveTexture w.2.2 texture
  (dumpTexture E fuel w.1 w.2.1 GL_TEXTURE_1D GL_TEXTURE_BINDING_1D s).andThen fun w =>
  (dumpTexture E fuel w.1 w.2.1 GL_TEXTURE_2D GL_TEXTURE_BINDING_2D w.2.2).andThen fun w =>
  (dumpTexture E fuel w.1 w.2.1 GL_TEXTURE_3D GL_TEXTURE_BINDING_3D w.2.2).andThen fun w =>
  (dumpTexture E fuel w.1 w.2.1 GL_TEXTURE_RECTANGLE GL_TEXTURE_BINDING_RECTANGLE
    w.2.2).andThen fun w =>
  dumpTexture E fuel w.1 w.2.1 GL_TEXTURE_CUBE_MAP GL_TEXTURE_BINDING_CUBE_MAP w.2.2

/-- The loop `for (GLint unit = 0; unit < max_units; ++unit)` of `dumpTextures`,
over the units still to do. -/
def dumpTextureUnits (E : Env) (fuel : Nat) :
    List GLint → JSONWriter × Context × GLState → Outcome (JSONWriter × Context × GLState)
  | [], w => Outcome.returned w
  | unit :: rest, w => (dumpTextureUnit E fuel unit w).andThen (dumpTextureUnits E fuel rest)

/-- The values `0, 1, ..., n - 1` a counting loop `for (i = 0; i < n; ++i)` runs
through; none when `n` is not positive. -/
def countTo (n : GLint) : List GLint :=
  (List.range n.toNat).map Int.ofNat

/-- Source `dumpTextures`. The fuel bounds each `do ... while(true)` loop of
`dumpTexture`. -/
def dumpTextures (E : Env) (fuel : Nat) (json : JSONWriter) (context : Context)
    (s : GLState) : Outcome (JSONWriter × Context × GLState) :=
  let json := json.beginMember "textures"
  let json := json.beginObject
  let active_texture := glGetIntegerv s GL_ACTIVE_TEXTURE GL_TEXTURE0
  let max_texture_coords := glGetIntegerv active_texture.2 GL_MAX_TEXTURE_COORDS 0
  let max_combined_texture_image_units :=
    glGetIntegerv max_texture_coords.2 GL_MAX_COMBINED_TEXTURE_IMAGE_UNITS 0
  let max_units := max max_combined_texture_image_units.1 max_texture_coords.1
  (dumpTextureUnits E fuel (countTo max_units)
      (json, context, max_combined_texture_image_units.2)).andThen fun w =>
    let s := glActiveTexture w.2.2 active_texture.1
    let json := w.1.endObject
    let json := json.endMember
    Outcome.returned (json, w.2.1, s)

/-- Source `getDrawableBounds`: every platform branch asks the window system
for the size of the current drawable and fails when there is none. -/
def getDrawableBounds (s : GLState) (width height : GLint) : Bool × GLint × GLint :=
  match s.drawableBounds with
  | some b => (true, b.1, b.2)
  | none => (false, width, height)

/-- Source table `texture_bindings`. -/
def texture_bindings : List (GLenum × GLenum) :=
  [(GL_TEXTURE_1D, GL_TEXTURE_BINDING_1D),
   (GL_TEXTURE_2D, GL_TEXTURE_BINDING_2D),
   (GL_TEXTURE_3D, GL_TEXTURE_BINDING_3D),
   (GL_TEXTURE_RECTANGLE, GL_TEXTURE_BINDING_RECTANGLE),
   (GL_TEXTURE_CUBE_MAP, GL_TEXTURE_BINDING_CUBE_MAP)]

/-- The loop `while (glGetError() != GL_NO_ERROR);`. `none` when the fuel runs
out before `glGetError` returns `GL_NO_ERROR`. -/
def drainErrorsFuel : Nat → GLState → Option GLState
  | 0, _ => none
  | fuel + 1, s =>
    let r := glGetError s
    if r.1 ≠ GL_NO_ERROR then drainErrorsFuel fuel r.2 else some r.2

/-- The loop `while (glGetError() != GL_NO_ERROR);` run to its end: the second
query at the latest finds the flag reset, so fuel 2 is enough (see
`drainErrorsFuel_enough`). -/
def drainErrors (s : GLState) : GLState :=
  (drainErrorsFuel 2 s).getD s

/-- The `for` loop of `bindTexture` over the rows of `texture_bindings` still to
try, and the two statements after it. Returns the result, `target`,
`bound_texture` and the state. -/
def bindTextureFrom (texture : GLint) :
    List (GLenum × GLenum) → GLint → GLState → Bool × GLenum × GLint × GLState
  | [], bound_texture, s => (false, GL_NONE, bound_texture, s)
  | row :: rest, bound_texture, s =>
    let target := row.1
    let binding := row.2
    let s := drainErrors s
    let b := glGetIntegerv s binding bound_texture
    let s := glBindTexture b.2 target texture
    let e := glGetError s
    if e.1 = GL_NO_ERROR then
      (true, target, b.1, e.2)
    else
      let s := glBindTexture e.2 target b.1
      bindTextureFrom texture rest b.1 s

/-- Source `bindTexture(texture, target, bound_texture)`. The reference
`target` is assigned on every path, so only `bound_texture` comes in. -/
def bindTexture (texture : GLint) (bound_texture : GLint) (s : GLState) :
    Bool × GLenum × GLint × GLState :=
  bindTextureFrom texture texture_bindings bound_texture s

/-- Source `getTextureLevelDesc`. -/
def getTextureLevelDesc (context : Context) (texture : GLint) (level : GLint)
    (desc : ImageDesc) (s : GLState) : Bool × ImageDesc × GLState :=
  let b := bindTexture texture 0 s
  if !b.1 then
    (false, desc, b.2.2.2)
  else
    let target := b.2.1
    let bound_texture := b.2.2.1
    let d := getActiveTextureLevelDesc context target level desc b.2.2.2
    let s := glBindTexture d.2.2 target bound_texture
    (d.2.1.valid, d.2.1, s)

/-! ## Renderbuffers and framebuffer attachments -/

/-- Source `getBoundRenderbufferDesc`. -/
def getBoundRenderbufferDesc (_context : Context) (desc : ImageDesc) (s : GLState) :
    Bool × ImageDesc × GLState :=
  let w := glGetRenderbufferParameteriv s GL_RENDERBUFFER GL_RENDERBUFFER_WIDTH desc.width
  let desc := { desc with width := w.1 }
  let h := glGetRenderbufferParameteriv w.2 GL_RENDERBUFFER GL_RENDERBUFFER_HEIGHT desc.height
  let desc := { desc with height := h.1 }
  let desc := { desc with depth := 1 }
  let f := glGetRenderbufferParameteriv h.2 GL_RENDERBUFFER GL_RENDERBUFFER_INTERNAL_FORMAT
    desc.internalFormat
  let desc := { desc with internalFormat := f.1 }
  (desc.valid, desc, f.2)

/-- Source `getRenderbufferDesc`. -/
def getRenderbufferDesc (context : Context) (renderbuffer : GLint) (desc : ImageDesc)
    (s : GLState) : Bool × ImageDesc × GLState :=
  let bound_renderbuffer := glGetIntegerv s GL_RENDERBUFFER_BINDING 0
  let s := glBindRenderbuffer bound_renderbuffer.2 GL_RENDERBUFFER renderbuffer
  let d := getBoundRenderbufferDesc context desc s
  let s := glBindRenderbuffer d.2.2 GL_RENDERBUFFER bound_renderbuffer.1
  (d.2.1.valid, d.2.1, s)

/-- Source `getFramebufferAttachmentDesc` (the warning on `std::cerr` is not
part of the state). -/
def getFramebufferAttachmentDesc (context : Context) (target attachment : GLenum)
    (desc : ImageDesc) (s : GLState) : Bool × ImageDesc × GLState :=
  let object_type := glGetFramebufferAttachmentParameteriv s target attachment
    GL_FRAMEBUFFER_ATTACHMENT_OBJECT_TYPE GL_NONE
  if object_type.1 = GL_NONE then
    (false, desc, object_type.2)
  else
    let object_name := glGetFramebufferAttachmentParameteriv object_type.2 target attachment
      GL_FRAMEBUFFER_ATTACHMENT_OBJECT_NAME 0
    if object_name.1 = 0 then
      (false, desc, object_name.2)
    else if object_type.1 = GL_RENDERBUFFER then
      getRenderbufferDesc context object_name.1 desc object_name.2
    else if object_type.1 = GL_TEXTURE then
      let texture_level := glGetFramebufferAttachmentParameteriv object_name.2 target
        attachment GL_FRAMEBUFFER_ATTACHMENT_TEXTURE_LEVEL 0
      getTextureLevelDesc context object_name.1 texture_level.1 desc texture_level.2
    else
      (false, desc, object_name.2)

/-! ## Read-buffer images -/

/-- Source `dumpReadBufferImage(json, width, height, format, internalFormat)`.
`DEPTH_AS_RGBA` is 0, so `type` stays `GL_UNSIGNED_BYTE` and `channels` is not
reassigned. A call that leaves `internalFormat` out passes the default
`GL_NONE`. -/
def dumpReadBufferImage (E : Env) (json : JSONWriter) (width height : GLint)
    (format : GLenum) (internalFormat : GLint) (s : GLState) :
    Outcome (JSONWriter × GLState) :=
  let channels := E.gl_format_channels format
  let context := Context.ctor s
  let json := json.beginObject
  let json := json.writeStringMember "__class__" "image"
  let json := json.writeNumberMember "__width__" width
  let json := json.writeNumberMember "__height__" height
  let json := json.writeNumberMember "__depth__" 1
  let json := json.writeStringMember "__format__" (E.enumToString internalFormat)
  let json := json.writeStringMember "__type__" "uint8"
  let json := json.writeBoolMember "__normalized__" true
  let json := json.writeNumberMember "__channels__" channels
  let type := GL_UNSIGNED_BYTE
  let count := wrapInt32 (width * height * channels)
  if newThrows E count then
    Outcome.threw count json s
  else
    match firstOverflow width [height, channels] with
    | some product => Outcome.undefined product
    | none =>
      let p := context.resetPixelPackState s
      let g := glReadPixels p.2 0 0 width height format type
      let s := p.1.restorePixelPackState g.2
      let json := json.beginMember "__data__"
      let pngBuffer := E.writePixelsToBuffer g.1 width height channels true
      let json := json.writeBase64 pngBuffer
      let json := json.endMember
      let json := json.endObject
      Outcome.returned (json, s)

/-- Store `v` in slot `i` of an array of names, `rbs[i] = v`. -/
def setSlot (rbs : Nat → GLint) (i : GLint) (v : GLint) : Nat → GLint :=
  fun k => if k = i.toNat then v else rbs k

/-- What `downsampledFramebuffer` hands back: the returned framebuffer name,
the caller's array `rbs`, `*numRbs`, and the state. -/
structure Downsampled where
  fbo : GLint
  rbs : Nat → GLint
  numRbs : GLint
  gl : GLState

/-- Source `downsampledFramebuffer`. The caller's array `rbs` is a map from
slot indices to names, so that a store to any slot is visible. -/
def downsampledFramebuffer (context : Context) (oldFbo : GLint) (drawbuffer : GLint)
    (colorRb depthRb stencilRb : GLint) (rbs : Nat → GLint) (s : GLState) : Downsampled :=
  let numRbs : GLint := 0
  let g := glGenFramebuffers s
  let fbo := g.1
  let s := glBindFramebuffer g.2 GL_FRAMEBUFFER fbo
  -- color buffer
  let s := glBindRenderbuffer s GL_RENDERBUFFER colorRb
  let d := getBoundRenderbufferDesc context ImageDesc.ctor s
  let desc := d.2.1
  let n := glGenRenderbuffers d.2.2
  let rbs := setSlot rbs numRbs n.1
  let s := glBindRenderbuffer n.2 GL_RENDERBUFFER (rbs numRbs.toNat)
  let s := glRenderbufferStorage s GL_RENDERBUFFER desc.internalFormat desc.width desc.height
  let s := glFramebufferRenderbuffer s GL_FRAMEBUFFER drawbuffer GL_RENDERBUFFER
    (rbs numRbs.toNat)
  let s := glBindFramebuffer s GL_READ_FRAMEBUFFER oldFbo
  let s := glBindFramebuffer s GL_DRAW_FRAMEBUFFER fbo
  let s := glDrawBuffer s drawbuffer
  let s := glReadBuffer s drawbuffer
  let s := glBlitFramebuffer s 0 0 desc.width desc.height 0 0 desc.width desc.height
    GL_COLOR_BUFFER_BIT GL_NEAREST
  let s := glBindFramebuffer s GL_FRAMEBUFFER fbo
  let numRbs := numRbs + 1
  if stencilRb = depthRb ∧ stencilRb ≠ 0 then
    -- combined depth and stencil buffer
    let s := glBindRenderbuffer s GL_RENDERBUFFER depthRb
    let d := getBoundRenderbufferDesc context ImageDesc.ctor s
    let desc := d.2.1
    let n := glGenRenderbuffers d.2.2
    let rbs := setSlot rbs numRbs n.1
    let s := glBindRenderbuffer n.2 GL_RENDERBUFFER (rbs numRbs.toNat)
    let s := glRenderbufferStorage s GL_RENDERBUFFER desc.internalFormat desc.width
      desc.height
    let s := glFramebufferRenderbuffer s GL_FRAMEBUFFER GL_DEPTH_STENCIL_ATTACHMENT
      GL_RENDERBUFFER (rbs numRbs.toNat)
    let s := glBindFramebuffer s GL_READ_FRAMEBUFFER oldFbo
    let s := glBindFramebuffer s GL_DRAW_FRAMEBUFFER fbo
    let s := glBlitFramebuffer s 0 0 desc.width desc.height 0 0 desc.width desc.height
      (GL_DEPTH_BUFFER_BIT + GL_STENCIL_BUFFER_BIT) GL_NEAREST
    let s := glBindFramebuffer s GL_FRAMEBUFFER fbo
    let numRbs := numRbs + 1
    { fbo := fbo, rbs := rbs, numRbs := numRbs, gl := s }
  else
    let r1 : (Nat → GLint) × GLint × GLState :=
      if depthRb ≠ 0 then
        let s := glBindRenderbuffer s GL_RENDERBUFFER depthRb
        let d := getBoundRenderbufferDesc context ImageDesc.ctor s
        let desc := d.2.1
        let n := glGenRenderbuffers d.2.2
        let rbs := setSlot rbs numRbs n.1
        let s := glBindRenderbuffer n.2 GL_RENDERBUFFER (rbs numRbs.toNat)
        let s := glRenderbufferStorage s GL_RENDERBUFFER desc.internalFormat desc.width
          desc.height
        let s := glFramebufferRenderbuffer s GL_FRAMEBUFFER GL_DEPTH_ATTACHMENT
          GL_RENDERBUFFER (rbs numRbs.toNat)
        let s := glBindFramebuffer s GL_READ_FRAMEBUFFER oldFbo
        let s := glBindFramebuffer s GL_DRAW_FRAMEBUFFER fbo
        let s := glDrawBuffer s GL_DEPTH_ATTACHMENT
        let s := glReadBuffer s GL_DEPTH_ATTACHMENT
        let s := glBlitFramebuffer s 0 0 desc.width desc.height 0 0 desc.width desc.height
          GL_DEPTH_BUFFER_BIT GL_NEAREST
        (rbs, numRbs + 1, s)
      else
        (rbs, numRbs, s)
    let r2 : (Nat → GLint) × GLint × GLState :=
      if stencilRb ≠ 0 then
        let rbs := r1.1
        let numRbs := r1.2.1
        let s := glBindRenderbuffer r1.2.2 GL_RENDERBUFFER stencilRb
        let d := getBoundRenderbufferDesc context ImageDesc.ctor s
        let desc := d.2.1
        let n := glGenRenderbuffers d.2.2
        let rbs := setSlot rbs numRbs n.1
        let s := glBindRenderbuffer n.2 GL_RENDERBUFFER (rbs numRbs.toNat)
        let s := glRenderbufferStorage s GL_RENDERBUFFER desc.internalFormat desc.width
          desc.height
        let s := glFramebufferRenderbuffer s GL_FRAMEBUFFER GL_STENCIL_ATTACHMENT
          GL_RENDERBUFFER (rbs numRbs.toNat)
        let s := glBindFramebuffer s GL_READ_FRAMEBUFFER oldFbo
        let s := glBindFramebuffer s GL_DRAW_FRAMEBUFFER fbo
        let s := glDrawBuffer s GL_STENCIL_ATTACHMENT
        let s := glReadBuffer s GL_STENCIL_ATTACHMENT
        let s := glBlitFramebuffer s 0 0 desc.width desc.height 0 0 desc.width desc.height
          GL_STENCIL_BUFFER_BIT GL_NEAREST
        (rbs, numRbs + 1, s)
      else
        r1
    { fbo := fbo, rbs := r2.1, numRbs := r2.2.1, gl := r2.2.2 }

/-! ## Framebuffer dumps -/

/-- Source `dumpDrawableImages`. The `#if 0` block is compiled out, so
`alpha_bits` stays 0. -/
def dumpDrawableImages (E : Env) (json : JSONWriter) (context : Context) (s : GLState) :
    Outcome (JSONWriter × GLState) :=
  let b := getDrawableBounds s 0 0
  if !b.1 then
    Outcome.returned (json, s)
  else
    let width := b.2.1
    let height := b.2.2
    let d : GLint × GLState :=
      if context.ES then
        (GL_BACK, s)
      else
        let q := glGetIntegerv s GL_DRAW_BUFFER GL_NONE
        (q.1, glReadBuffer q.2 q.1)
    let draw_buffer := d.1
    let w1 : Outcome (JSONWriter × GLState) :=
      if draw_buffer ≠ GL_NONE then
        let read_buffer : GLint × GLState :=
          if !context.ES then glGetIntegerv d.2 GL_READ_BUFFER GL_NONE else (GL_NONE, d.2)
        let alpha_bits : GLint := 0
        let format := if alpha_bits ≠ 0 then GL_RGBA else GL_RGB
        let json := json.beginMember (E.enumToString draw_buffer)
        (dumpReadBufferImage E json width height format GL_NONE read_buffer.2).andThen fun r =>
          let json := r.1.endMember
          let s := if !context.ES then glReadBuffer r.2 read_buffer.1 else r.2
          Outcome.returned (json, s)
      else
        Outcome.returned (json, d.2)
    w1.andThen fun w1 =>
      if !context.ES then
        let depth_bits := glGetIntegerv w1.2 GL_DEPTH_BITS 0
        let w2 : Outcome (JSONWriter × GLState) :=
          if depth_bits.1 ≠ 0 then
            let json := w1.1.beginMember "GL_DEPTH_COMPONENT"
            (dumpReadBufferImage E json width height GL_DEPTH_COMPONENT GL_NONE
              depth_bits.2).andThen fun r =>
              Outcome.returned (r.1.endMember, r.2)
          else
            Outcome.returned (w1.1, depth_bits.2)
        w2.andThen fun w2 =>
          let stencil_bits := glGetIntegerv w2.2 GL_STENCIL_BITS 0
          if stencil_bits.1 ≠ 0 then
            let json := w2.1.beginMember "GL_STENCIL_INDEX"
            (dumpReadBufferImage E json width height GL_STENCIL_INDEX GL_NONE
              stencil_bits.2).andThen fun r =>
              Outcome.returned (r.1.endMember, r.2)
          else
            Outcome.returned (w2.1, stencil_bits.2)
      else
        Outcome.returned w1

/-- Source `dumpFramebufferAttachment`. -/
def dumpFramebufferAttachment (E : Env) (json : JSONWriter) (context : Context)
    (target attachment format : GLenum) (s : GLState) : Outcome (JSONWriter × GLState) :=
  let d := getFramebufferAttachmentDesc context target attachment ImageDesc.ctor s
  if !d.1 then
    Outcome.returned (json, d.2.2)
  else
    let desc := d.2.1
    let json := json.beginMember (E.enumToString attachment)
    (dumpReadBufferImage E json desc.width desc.height format desc.internalFormat
      d.2.2).andThen fun r =>
      Outcome.returned (r.1.endMember, r.2)

/-- The body of the loop over the draw buffers in `dumpFramebufferAttachments`
(the warning on `std::cerr` is not part of the state). -/
def dumpDrawBuffer (E : Env) (context : Context) (target : GLenum)
    (max_color_attachments : GLint) (i : GLint) (w : JSONWriter × GLState) :
    Outcome (JSONWriter × GLState) :=
  let draw_buffer := glGetIntegerv w.2 (GL_DRAW_BUFFER0 + i) GL_NONE
  if draw_buffer.1 ≠ GL_NONE then
    let s := glReadBuffer draw_buffer.2 draw_buffer.1
    let attachment : GLint :=
      if draw_buffer.1 ≥ GL_COLOR_ATTACHMENT0 ∧
          draw_buffer.1 < GL_COLOR_ATTACHMENT0 + max_color_attachments then
        draw_buffer.1
      else
        GL_COLOR_ATTACHMENT0
    let alpha_size := glGetFramebufferAttachmentParameteriv s target attachment
      GL_FRAMEBUFFER_ATTACHMENT_ALPHA_SIZE 0
    let format := if alpha_size.1 ≠ 0 then GL_RGBA else GL_RGB
    dumpFramebufferAttachment E w.1 context target attachment format alpha_size.2
  else
    Outcome.returned (w.1, draw_buffer.2)

/-- The loop `for (GLint i = 0; i < max_draw_buffers; ++i)` of
`dumpFramebufferAttachments`, over the indices still to do. -/
def dumpDrawBuffers (E : Env) (context : Context) (target : GLenum)
    (max_color_attachments : GLint) :
    List GLint → JSONWriter × GLState → Outcome (JSONWriter × GLState)
  | [], w => Outcome.returned w
  | i :: rest, w =>
    (dumpDrawBuffer E context target max_color_attachments i w).andThen
      (dumpDrawBuffers E context target max_color_attachments rest)

/-- Source `dumpFramebufferAttachments`. -/
def dumpFramebufferAttachments (E : Env) (json : JSONWriter) (context : Context)
    (target : GLenum) (s : GLState) : Outcome (JSONWriter × GLState) :=
  let read_framebuffer := glGetIntegerv s GL_READ_FRAMEBUFFER_BINDING 0
  let read_buffer := glGetIntegerv read_framebuffer.2 GL_READ_BUFFER GL_NONE
  let max_draw_buffers := glGetIntegerv read_buffer.2 GL_MAX_DRAW_BUFFERS 1
  let max_color_attachments := glGetIntegerv max_draw_buffers.2 GL_MAX_COLOR_ATTACHMENTS 0
  (dumpDrawBuffers E context target max_color_attachments.1 (countTo max_draw_buffers.1)
      (json, max_color_attachments.2)).andThen fun w =>
    let s := glReadBuffer w.2 read_buffer.1
    let w : Outcome (JSONWriter × GLState) :=
      if !context.ES then
        (dumpFramebufferAttachment E w.1 context target GL_DEPTH_ATTACHMENT
          GL_DEPTH_COMPONENT s).andThen fun r =>
          dumpFramebufferAttachment E r.1 context target GL_STENCIL_ATTACHMENT
            GL_STENCIL_INDEX r.2
      else
        Outcome.returned (w.1, s)
    w.andThen fun w =>
      let s := glBindFramebuffer w.2 GL_READ_FRAMEBUFFER read_framebuffer.1
      Outcome.returned (w.1, s)

/-- One of the three blocks of `dumpFramebuffer` that look at an attachment of
the draw framebuffer: when it is a renderbuffer, store its name through
`rb`, bind it and see whether it has samples. Returns `object_type`, the name
and `multisample`. -/
def probeAttachment (attachment : GLenum) (object_type : GLint) (rb : GLint)
    (multisample : Bool) (s : GLState) : GLint × GLint × Bool × GLState :=
  let t := glGetFramebufferAttachmentParameteriv s GL_DRAW_FRAMEBUFFER attachment
    GL_FRAMEBUFFER_ATTACHMENT_OBJECT_TYPE object_type
  if t.1 = GL_RENDERBUFFER then
    let name := glGetFramebufferAttachmentParameteriv t.2 GL_DRAW_FRAMEBUFFER attachment
      GL_FRAMEBUFFER_ATTACHMENT_OBJECT_NAME rb
    let s := glBindRenderbuffer name.2 GL_RENDERBUFFER name.1
    let samples := glGetRenderbufferParameteriv s GL_RENDERBUFFER GL_RENDERBUFFER_SAMPLES 0
    (t.1, name.1, if samples.1 ≠ 0 then true else multisample, samples.2)
  else
    (t.1, rb, multisample, t.2)

/-- Source `dumpFramebuffer`. The locals `object_type` and `rbs` are not
initialised in the source; their indeterminate contents are the arguments
`object_type` and `rbs`. -/
def dumpFramebuffer (E : Env) (json : JSONWriter) (context : Context) (object_type : GLint)
    (rbs : Nat → GLint) (s : GLState) : Outcome (JSONWriter × GLState) :=
  let json := json.beginMember "framebuffer"
  let json := json.beginObject
  let boundDrawFbo := glGetIntegerv s GL_DRAW_FRAMEBUFFER_BINDING 0
  let boundReadFbo := glGetIntegerv boundDrawFbo.2 GL_READ_FRAMEBUFFER_BINDING 0
  let w : Outcome (JSONWriter × GLState) :=
    if boundDrawFbo.1 = 0 then
      dumpDrawableImages E json context boundReadFbo.2
    else if context.ES then
      dumpFramebufferAttachments E json context GL_FRAMEBUFFER boundReadFbo.2
    else
      let draw_buffer0 := glGetIntegerv boundReadFbo.2 GL_DRAW_BUFFER0 GL_NONE
      let boundRb := glGetIntegerv draw_buffer0.2 GL_RENDERBUFFER_BINDING 0
      let c := probeAttachment draw_buffer0.1 object_type 0 false boundRb.2
      let d := probeAttachment GL_DEPTH_ATTACHMENT c.1 0 c.2.2.1 c.2.2.2
      let st := probeAttachment GL_STENCIL_ATTACHMENT d.1 0 d.2.2.1 d.2.2.2
      let colorRb := c.2.1
      let depthRb := d.2.1
      let stencilRb := st.2.1
      let multisample := st.2.2.1
      let s := glBindRenderbuffer st.2.2.2 GL_RENDERBUFFER boundRb.1
      let numRbs : GLint := 0
      let fboCopy : GLint := 0
      let copy : Downsampled :=
        if multisample then
          downsampledFramebuffer context boundDrawFbo.1 draw_buffer0.1 colorRb depthRb
            stencilRb rbs s
        else
          { fbo := fboCopy, rbs := rbs, numRbs := numRbs, gl := s }
      (dumpFramebufferAttachments E json context GL_DRAW_FRAMEBUFFER copy.gl).andThen fun r =>
        let s :=
          if multisample then
            let s := glBindRenderbuffer r.2 GL_RENDERBUFFER_BINDING boundRb.1
            let s := glDeleteRenderbuffers s copy.numRbs [copy.rbs 0, copy.rbs 1, copy.rbs 2]
            glDeleteFramebuffers s 1 [copy.fbo]
          else
            r.2
        let s := glBindFramebuffer s GL_READ_FRAMEBUFFER boundReadFbo.1
        let s := glBindFramebuffer s GL_DRAW_FRAMEBUFFER boundDrawFbo.1
        Outcome.returned (r.1, s)
  w.andThen fun w =>
    let json := w.1.endObject
    let json := json.endMember
    Outcome.returned (json, w.2)

/-! ## Concrete collaborators and states, used to instantiate the statements -/

/-- Helpers for the instances: enumerants print as two fixed names, the
formats have 4, 3 or 1 channels, the encoder keeps the pixels and prefixes the
width, the height and the channel count, and the allocator grants every
size. -/
def exampleEnv : Env where
  enumToString := fun e => if e = GL_NONE then "GL_NONE" else "GL_ENUM"
  gl_format_channels := fun format =>
    if format = GL_RGBA then 4 else if format = GL_RGB then 3 else 1
  writePixelsToBuffer := fun pixels width height channels _ =>
    width.toNat :: height.toNat :: channels.toNat :: pixels
  allocates := fun _ => true

/-- A desktop (non-ES) context with nothing bound: the window-system
framebuffer is double buffered and has no depth or stencil bits, one texture
unit, level 0 only, one draw buffer, eight color attachments, and no drawable
whose size can be queried. -/
def desktop : GLState where
  ES := false
  error := GL_NO_ERROR
  activeTexture := GL_TEXTURE0
  enabled := fun _ _ => false
  textureBinding := fun _ _ => 0
  textureTarget := fun _ => GL_NONE
  textureNameUsable := fun _ => true
  targetSupported := fun t =>
    decide (t = GL_TEXTURE_1D ∨ t = GL_TEXTURE_2D ∨ t = GL_TEXTURE_3D ∨
      t = GL_TEXTURE_RECTANGLE ∨ t = GL_TEXTURE_CUBE_MAP)
  maxLevel := 0
  texLevel := fun _ _ _ => ImageDesc.ctor
  texImage := fun _ _ _ => []
  renderbufferBinding := 0
  renderbufferNames := []
  renderbuffer := fun _ => { width := 0, height := 0, internalFormat := GL_NONE, samples := 0 }
  readFramebuffer := 0
  drawFramebuffer := 0
  framebufferNames := []
  attachment := fun _ _ pname =>
    if pname = GL_FRAMEBUFFER_ATTACHMENT_OBJECT_TYPE then some GL_NONE else none
  readBuffer := fun fbo => if fbo = 0 then GL_BACK else GL_COLOR_ATTACHMENT0
  readBufferValid := fun fbo mode =>
    if fbo = 0 then decide (mode = GL_FRONT ∨ mode = GL_BACK)
    else decide (mode = GL_NONE ∨ (GL_COLOR_ATTACHMENT0 ≤ mode ∧ mode < GL_COLOR_ATTACHMENT0 + 8))
  drawBuffer := fun fbo _ => if fbo = 0 then GL_BACK else GL_COLOR_ATTACHMENT0
  drawBufferValid := fun fbo mode =>
    if fbo = 0 then decide (mode = GL_NONE ∨ mode = GL_FRONT ∨ mode = GL_BACK)
    else decide (mode = GL_NONE ∨ (GL_COLOR_ATTACHMENT0 ≤ mode ∧ mode < GL_COLOR_ATTACHMENT0 + 8))
  maxDrawBuffers := 1
  intParam := fun pname =>
    if pname = GL_MAX_TEXTURE_COORDS then some 1
    else if pname = GL_MAX_COMBINED_TEXTURE_IMAGE_UNITS then some 1
    else if pname = GL_MAX_COLOR_ATTACHMENTS then some 8
    else if pname = GL_DEPTH_BITS then some 0
    else if pname = GL_STENCIL_BITS then some 0
    else none
  pixels := fun _ _ _ _ _ => []
  packState := 0
  drawableBounds := none

/-- The desktop context with texture 1 bound to `GL_TEXTURE_2D` on unit 0; its
level 0 is a 1x1 image. -/
def textureState : GLState :=
  { desktop with
    textureBinding := fun unit t => if unit = GL_TEXTURE0 ∧ t = GL_TEXTURE_2D then 1 else 0
    textureTarget := fun name => if name = 1 then GL_TEXTURE_2D else GL_NONE
    texLevel := fun name t level =>
      if name = 1 ∧ t = GL_TEXTURE_2D ∧ level = 0 then
        { width := 1, height := 1, depth := 1, internalFormat := GL_RGBA }
      else ImageDesc.ctor
    texImage := fun _ _ _ => [10, 20, 30, 40] }

/-- The desktop context drawing to the window: the drawable is 1x1, the draw
buffer is `GL_BACK` and the read buffer was set to `GL_FRONT`. -/
def windowState : GLState :=
  { desktop with
    drawableBounds := some (1, 1)
    readBuffer := fun fbo => if fbo = 0 then GL_FRONT else GL_COLOR_ATTACHMENT0 }

/-- The state `textureState` with a three-dimensional texture of 1024x1024x512
texels bound instead: four bytes a texel make 2147483648 bytes, one more than
an `int` holds. -/
def largeTextureState : GLState :=
  { desktop with
    textureBinding := fun unit t => if unit = GL_TEXTURE0 ∧ t = GL_TEXTURE_3D then 1 else 0
    textureTarget := fun name => if name = 1 then GL_TEXTURE_3D else GL_NONE
    texLevel := fun name t level =>
      if name = 1 ∧ t = GL_TEXTURE_3D ∧ level = 0 then
        { width := 1024, height := 1024, depth := 512, internalFormat := GL_RGBA }
      else ImageDesc.ctor
    texImage := fun _ _ _ => [] }

/-- The desktop context with framebuffer object 1 bound for reading and
drawing. Its color attachment 0 is renderbuffer 1, a 4x4 image with
`samples` samples; renderbuffer 2 is bound to `GL_RENDERBUFFER`. -/
def fboState (samples : GLint) : GLState :=
  { desktop with
    framebufferNames := [1]
    readFramebuffer := 1
    drawFramebuffer := 1
    renderbufferNames := [1, 2]
    renderbufferBinding := 2
    renderbuffer := fun name =>
      if name = 1 then { width := 4, height := 4, internalFormat := GL_RGBA, samples := samples }
      else { width := 0, height := 0, internalFormat := GL_NONE, samples := 0 }
    attachment := fun fbo a pname =>
      if fbo = 1 ∧ a = GL_COLOR_ATTACHMENT0 then
        if pname = GL_FRAMEBUFFER_ATTACHMENT_OBJECT_TYPE then some GL_RENDERBUFFER
        else if pname = GL_FRAMEBUFFER_ATTACHMENT_OBJECT_NAME then some 1
        else if pname = GL_FRAMEBUFFER_ATTACHMENT_ALPHA_SIZE then some 8
        else none
      else if pname = GL_FRAMEBUFFER_ATTACHMENT_OBJECT_TYPE then some GL_NONE
      else none }

/-! ## The shape of an image object -/

/-- The calls of an image object up to the allocation of the pixel buffer:
`beginObject` and the members `__class__`, `__width__`, `__height__`,
`__depth__`, `__format__`, `__type__`, `__normalized__`, `__channels__` in
this order. -/
def imageHead (width height depth : GLint) (format : String) (channels : GLint) :
    List JsonCall :=
  [JsonCall.beginObject,
   JsonCall.writeStringMember "__class__" "image",
   JsonCall.writeNumberMember "__width__" width,
   JsonCall.writeNumberMember "__height__" height,
   JsonCall.writeNumberMember "__depth__" depth,
   JsonCall.writeStringMember "__format__" format,
   JsonCall.writeStringMember "__type__" "uint8",
   JsonCall.writeBoolMember "__normalized__" true,
   JsonCall.writeNumberMember "__channels__" channels]

/-- The shape of an image object as the claim words it, to be compared with
what the dumps emit: the object with the members of `imageHead`, then the
member `__data__` holding the base64 blob that the pixel encoder made of
`pixels` for the width, height and channel count written before. -/
def imageObject (E : Env) (width height depth : GLint) (format : String) (channels : GLint)
    (pixels : List Nat) : List JsonCall :=
  imageHead width height depth format channels ++
  [JsonCall.beginMember "__data__",
   JsonCall.writeBase64 (E.writePixelsToBuffer pixels width height channels true),
   JsonCall.endMember,
   JsonCall.endObject]

/-- A call sequence that is well nested on its own: run on top of any stack of
open frames, it ends with exactly that stack. -/
def Balanced (calls : List JsonCall) : Prop :=
  ∀ st, nesting st calls = some st

/-- The sink `after` is the sink `before` followed by calls that leave the
frames `extra`, at least one, open on top of those that were open before. -/
def LeftOpen (before after : JSONWriter) : Prop :=
  ∃ calls extra, after = before ++ calls ∧ extra ≠ [] ∧
    ∀ st, nesting st calls = some (extra ++ st)

end glstate

namespace trace

variable {σ : Type}

/-! ## The comparison operators unfolded to arithmetic on the fields -/

theorem operator_lt_iff (a b : Offset) :
    operator_lt a b = true ↔
      (a.chunk < b.chunk ∨ (a.chunk = b.chunk ∧ a.offsetInChunk < b.offsetInChunk)) := by
  simp [operator_lt]

theorem operator_eq_iff (a b : Offset) :
    operator_eq a b = true ↔ (a.chunk = b.chunk ∧ a.offsetInChunk = b.offsetInChunk) := by
  simp [operator_eq]

theorem operator_ge_iff (a b : Offset) :
    operator_ge a b = true ↔
      (b.chunk < a.chunk ∨ (a.chunk = b.chunk ∧ b.offsetInChunk ≤ a.offsetInChunk)) := by
  simp [operator_ge]

/-! ## Offset: ordering and equality -/

/-- C2: `operator<` is the lexicographic order on `(chunk, offsetInChunk)`:
`a < b` iff `a.chunk < b.chunk`, or the chunks are equal and
`a.offsetInChunk < b.offsetInChunk`. A smaller chunk index decides the
comparison whatever the offsets in the chunk are, `Offset(0, 1000000) <
Offset(1, 0)`, and three offsets of one chunk with increasing `offsetInChunk`
satisfy `a < b` and `b < c`. -/
theorem Offset.lt_lexicographic :
    (∀ a b : Offset, operator_lt a b = true ↔
      (a.chunk < b.chunk ∨ (a.chunk = b.chunk ∧ a.offsetInChunk < b.offsetInChunk))) ∧
    (∀ a b : Offset, a.chunk < b.chunk → operator_lt a b = true) ∧
    operator_lt (Offset.ctor (some 0) (some 1000000)) (Offset.ctor (some 1) (some 0)) = true ∧
    (∀ a b c : Offset, a.chunk = b.chunk → b.chunk = c.chunk →
      a.offsetInChunk < b.offsetInChunk → b.offsetInChunk < c.offsetInChunk →
      operator_lt a b = true ∧ operator_lt b c = true) := by
  refine ⟨operator_lt_iff, ?_, ?_, ?_⟩
  · intro a b h
    exact (operator_lt_iff a b).2 (Or.inl h)
  · decide
  · intro a b c hab hbc h1 h2
    exact ⟨(operator_lt_iff a b).2 (Or.inr ⟨hab, h1⟩),
      (operator_lt_iff b c).2 (Or.inr ⟨hbc, h2⟩)⟩

/-- Instance of C2 at the offsets `(5, 1)`, `(5, 2)`, `(5, 3)` of one chunk and at
`(2, 9)` against `(3, 0)`. -/
theorem Offset.lt_lexicographic_witness :
    (operator_lt ⟨5, 1⟩ ⟨5, 2⟩ = true ∧ operator_lt ⟨5, 2⟩ ⟨5, 3⟩ = true) ∧
      operator_lt ⟨2, 9⟩ ⟨3, 0⟩ = true :=
  ⟨Offset.lt_lexicographic.2.2.2 ⟨5, 1⟩ ⟨5, 2⟩ ⟨5, 3⟩ rfl rfl (by decide) (by decide),
    Offset.lt_lexicographic.2.1 ⟨2, 9⟩ ⟨3, 0⟩ (by decide)⟩

/-- C3: `operator<` is a strict total order on offsets: it is irreflexive and
transitive, and for any two offsets exactly one of `a < b`, `a == b`, `b < a`
holds. -/
theorem Offset.lt_strict_total :
    (∀ a : Offset, operator_lt a a = false) ∧
    (∀ a b c : Offset, operator_lt a b = true → operator_lt b c = true →
      operator_lt a c = true) ∧
    (∀ a b : Offset,
      (operator_lt a b = true ∨ operator_eq a b = true ∨ operator_lt b a = true) ∧
      ¬ (operator_lt a b = true ∧ operator_eq a b = true) ∧
      ¬ (operator_lt a b = true ∧ operator_lt b a = true) ∧
      ¬ (operator_eq a b = true ∧ operator_lt b a = true)) := by
  refine ⟨?_, ?_, ?_⟩
  · intro a
    cases h : operator_lt a a
    · rfl
    · rw [operator_lt_iff] at h
      omega
  · intro a b c hab hbc
    rw [operator_lt_iff] at hab hbc ⊢
    omega
  · intro a b
    simp only [operator_lt_iff, operator_eq_iff]
    omega

/-- Instance of C3: from `(0, 7) < (1, 0)` and `(1, 0) < (1, 4)` transitivity
gives `(0, 7) < (1, 4)`. -/
theorem Offset.lt_strict_total_witness :
    operator_lt ⟨0, 7⟩ ⟨1, 0⟩ = true ∧ operator_lt ⟨1, 0⟩ ⟨1, 4⟩ = true ∧
      operator_lt ⟨0, 7⟩ ⟨1, 4⟩ = true :=
  ⟨by decide, by decide,
    Offset.lt_strict_total.2.1 ⟨0, 7⟩ ⟨1, 0⟩ ⟨1, 4⟩ (by decide) (by decide)⟩

/-- C8: the five comparison operators describe one ordering: `a > b` iff
`b < a`; `a >= b` iff not `a < b`, iff `a > b` or `a == b`; `a <= b` iff not
`b < a`, iff `a < b` or `a == b`; and `a <= b` with `b <= a` holds iff
`a == b`. -/
theorem Offset.operators_agree (a b : Offset) :
    (operator_gt a b = true ↔ operator_lt b a = true) ∧
    (operator_ge a b = true ↔ ¬ operator_lt a b = true) ∧
    (operator_ge a b = true ↔ (operator_gt a b = true ∨ operator_eq a b = true)) ∧
    (operator_le a b = true ↔ ¬ operator_lt b a = true) ∧
    (operator_le a b = true ↔ (operator_lt a b = true ∨ operator_eq a b = true)) ∧
    ((operator_le a b = true ∧ operator_le b a = true) ↔ operator_eq a b = true) := by
  simp only [operator_gt, operator_le, operator_lt_iff, operator_eq_iff, operator_ge_iff]
  refine ⟨trivial, ?_, ?_, ?_, ?_, ?_⟩ <;> constructor <;> intro h <;> omega

/-- C9: `a == b` holds iff both fields are equal, so offsets that differ in a
field are never equal, and `Offset()` equals `Offset(0, 0)`. -/
theorem Offset.eq_fieldwise :
    (∀ a b : Offset, operator_eq a b = true ↔
      (a.chunk = b.chunk ∧ a.offsetInChunk = b.offsetInChunk)) ∧
    (∀ a b : Offset, (a.chunk ≠ b.chunk ∨ a.offsetInChunk ≠ b.offsetInChunk) →
      operator_eq a b = false) ∧
    operator_eq (Offset.ctor none none) (Offset.ctor (some 0) (some 0)) = true ∧
    Offset.ctor none none = Offset.ctor (some 0) (some 0) := by
  refine ⟨operator_eq_iff, ?_, by decide, by decide⟩
  intro a b h
  cases hh : operator_eq a b
  · rfl
  · rw [operator_eq_iff] at hh
    omega

/-- Instance of C9: `(3, 4)` and `(3, 5)` differ in `offsetInChunk` and are not
equal, `(2, 4)` and `(3, 4)` differ in `chunk` and are not equal. -/
theorem Offset.eq_fieldwise_witness :
    operator_eq ⟨3, 4⟩ ⟨3, 5⟩ = false ∧ operator_eq ⟨2, 4⟩ ⟨3, 4⟩ = false :=
  ⟨Offset.eq_fieldwise.2.1 ⟨3, 4⟩ ⟨3, 5⟩ (Or.inr (by decide)),
    Offset.eq_fieldwise.2.1 ⟨2, 4⟩ ⟨3, 4⟩ (Or.inl (by decide))⟩

/-! ## File: the closed state, open and close -/

/-- C1: on a closed instance `read` returns 0 and leaves the buffer alone,
`getc` returns -1, `skip` returns false, `percentRead` returns 0 and `close`
does nothing. Each call returns the very state it was given, so no backend
hook was invoked (the log and the backend state are unchanged) and the
instance is still closed. An instance is closed in particular after `close`
and after an `open` that returned false. -/
theorem File.closed_safe (B : Backend σ) (f : File σ) (h : f.isOpened = false)
    (buffer : List Nat) (length : Nat) :
    (File.read B f buffer length = (0, buffer, f) ∧
      File.getc B f = (-1, f) ∧
      File.skip B f length = (false, f) ∧
      File.percentRead B f = (0, f) ∧
      File.close B f = f) ∧
    ((File.read B f buffer length).2.2.log = f.log ∧
      (File.getc B f).2.log = f.log ∧
      (File.skip B f length).2.log = f.log ∧
      (File.percentRead B f).2.log = f.log ∧
      (File.close B f).log = f.log) ∧
    ((File.read B f buffer length).2.2.isOpened = false ∧
      (File.getc B f).2.isOpened = false ∧
      (File.skip B f length).2.isOpened = false ∧
      (File.percentRead B f).2.isOpened = false ∧
      (File.close B f).isOpened = false) ∧
    (∀ g : File σ, (File.close B g).isOpened = false) ∧
    (∀ (g : File σ) (filename : String), (File.open_ B g filename).1 = false →
      (File.open_ B g filename).2.isOpened = false) := by
  have hc : f.m_isOpened = false := h
  have e1 : File.read B f buffer length = (0, buffer, f) := by simp [File.read, hc]
  have e2 : File.getc B f = (-1, f) := by simp [File.getc, hc]
  have e3 : File.skip B f length = (false, f) := by simp [File.skip, hc]
  have e4 : File.percentRead B f = (0, f) := by simp [File.percentRead, hc]
  have e5 : File.close B f = f := by simp [File.close, hc]
  refine ⟨⟨e1, e2, e3, e4, e5⟩, ?_, ?_, ?_, ?_⟩
  · rw [e1, e2, e3, e4, e5]
    exact ⟨rfl, rfl, rfl, rfl, rfl⟩
  · rw [e1, e2, e3, e4, e5]
    exact ⟨h, h, h, h, h⟩
  · intro g
    cases hg : g.m_isOpened <;> simp [File.close, File.isOpened, hg]
  · intro g filename hr
    simpa [File.open_, File.isOpened] using hr

/-- Instance of C1: the closed in-memory instance, a two-byte buffer and
length 2. -/
theorem File.closed_safe_witness :
    memClosed.isOpened = false ∧
      File.read memBackend memClosed [1, 2] 2 = (0, [1, 2], memClosed) ∧
      File.getc memBackend memClosed = (-1, memClosed) ∧
      File.skip memBackend memClosed 2 = (false, memClosed) ∧
      File.percentRead memBackend memClosed = (0, memClosed) ∧
      File.close memBackend memClosed = memClosed :=
  ⟨rfl, (File.closed_safe memBackend memClosed rfl [1, 2] 2).1⟩

/-- C4: `open(filename)` returns exactly what the backend's `rawOpen(filename)`
returned (the hook runs on the members left by the implicit close, when
there was one, and is the last hook invoked), and afterwards `isOpened()` is
that value; when the backend open fails, `open` returns false and the instance
is closed, whatever it was before. -/
theorem File.open_result (B : Backend σ) (f : File σ) (filename : String) :
    (File.open_ B f filename).1 =
      (B.rawOpen (if f.isOpened then
        ({ m_isOpened := false, raw := (B.rawClose f.members).raw } : Members σ)
        else f.members) filename).2 ∧
    (File.open_ B f filename).2.log.getLast? =
      some (RawCall.rawOpen filename (File.open_ B f filename).1) ∧
    (File.open_ B f filename).2.isOpened = (File.open_ B f filename).1 ∧
    ((B.rawOpen (if f.isOpened then
        ({ m_isOpened := false, raw := (B.rawClose f.members).raw } : Members σ)
        else f.members) filename).2 = false →
      (File.open_ B f filename).1 = false ∧
        (File.open_ B f filename).2.isOpened = false) := by
  cases hf : f.m_isOpened <;>
    simp [File.open_, File.close, File.isOpened, File.members, hf]

/-- Instance of C4: the empty name cannot be opened by the in-memory backend;
`open` on the open instance returns false and leaves it closed. -/
theorem File.open_result_witness :
    (File.open_ memBackend memOpened "").1 = false ∧
      (File.open_ memBackend memOpened "").2.isOpened = false :=
  (File.open_result memBackend memOpened "").2.2.2 (by decide)

/-- C5: `open(p2)` on an open instance invokes exactly `rawClose` and then
`rawOpen(p2)`, the latter on the backend state `rawClose` left, with the flag
cleared; on a closed instance it invokes `rawOpen(p2)` alone. -/
theorem File.open_closes_first (B : Backend σ) (f : File σ) (p2 : String) :
    (f.isOpened = true →
      (File.open_ B f p2).2.log =
          f.log ++ [RawCall.rawClose, RawCall.rawOpen p2 (File.open_ B f p2).1] ∧
        (File.open_ B f p2).2.raw =
          (B.rawOpen { m_isOpened := false, raw := (B.rawClose f.members).raw } p2).1.raw) ∧
    (f.isOpened = false →
      (File.open_ B f p2).2.log = f.log ++ [RawCall.rawOpen p2 (File.open_ B f p2).1] ∧
        (File.open_ B f p2).2.raw = (B.rawOpen f.members p2).1.raw) := by
  cases hf : f.m_isOpened <;>
    simp [File.open_, File.close, File.isOpened, File.members, hf]

/-- Instance of C5: reopening the open in-memory instance on `"ab"` logs
`rawClose` then `rawOpen "ab"`; opening the closed one logs `rawOpen "ab"`
alone. -/
theorem File.open_closes_first_witness :
    (File.open_ memBackend memOpened "ab").2.log =
        [RawCall.rawClose, RawCall.rawOpen "ab" true] ∧
      (File.open_ memBackend memClosed "ab").2.log = [RawCall.rawOpen "ab" true] :=
  ⟨((File.open_closes_first memBackend memOpened "ab").1 rfl).1,
    ((File.open_closes_first memBackend memClosed "ab").2 rfl).1⟩

/-- C6: `close` is idempotent: closing twice gives the same state, log of
backend hooks included, as closing once. On an open instance the first close
invokes `rawClose` exactly once and makes `isOpened()` false; a close on a
closed instance invokes nothing and changes nothing. -/
theorem File.close_idempotent (B : Backend σ) (f : File σ) :
    File.close B (File.close B f) = File.close B f ∧
    (File.close B f).isOpened = false ∧
    (f.isOpened = true →
      (File.close B f).log = f.log ++ [RawCall.rawClose] ∧
        (File.close B f).raw = (B.rawClose f.members).raw ∧
        (File.close B (File.close B f)).log = f.log ++ [RawCall.rawClose]) ∧
    (f.isOpened = false → File.close B f = f) := by
  cases hf : f.m_isOpened <;>
    simp [File.close, File.isOpened, File.members, hf]

/-- Instance of C6: closing the open in-memory instance once or twice logs one
`rawClose`. -/
theorem File.close_idempotent_witness :
    (File.close memBackend memOpened).log = [RawCall.rawClose] ∧
      (File.close memBackend (File.close memBackend memOpened)).log = [RawCall.rawClose] :=
  ⟨((File.close_idempotent memBackend memOpened).2.2.1 rfl).1,
    ((File.close_idempotent memBackend memOpened).2.2.1 rfl).2.2⟩

/-! ## File: the backing storage is released once per acquisition -/

theorem ownership_append (held : Bool) (l1 l2 : List RawCall) :
    ownership held (l1 ++ l2) = (ownership held l1).bind (fun h => ownership h l2) := by
  induction l1 generalizing held with
  | nil => simp [ownership]
  | cons x rest ih =>
    cases x <;> cases held <;> simp [ownership, ih]

/-- Every public call keeps the log in step with the flag: if the log so far
is a legal ownership history ending in `m_isOpened`, so is the log after. -/
theorem ownership_step (B : Backend σ) (hkeep : B.keepsFlag) (f : File σ) (c : Call)
    (h : ownership false f.log = some f.m_isOpened) :
    ownership false (File.step B f c).log = some (File.step B f c).m_isOpened := by
  obtain ⟨hread, hgetc, hskip, hpercent⟩ := hkeep
  cases c <;> cases hf : f.m_isOpened <;>
    simp [File.step, File.open_, File.close, File.read, File.getc, File.skip,
      File.percentRead, File.members, ownership_append, ownership, h, hf, hread, hgetc,
      hskip, hpercent]

theorem ownership_run (B : Backend σ) (hkeep : B.keepsFlag) (calls : List Call) (f : File σ)
    (h : ownership false f.log = some f.m_isOpened) :
    ownership false (File.run B f calls).log = some (File.run B f calls).m_isOpened := by
  induction calls generalizing f with
  | nil => simpa [File.run] using h
  | cons c rest ih =>
    have := ih (File.step B f c) (ownership_step B hkeep f c h)
    simpa [File.run] using this

/-- A legal history that ends with the storage held either started held and
contains neither a `rawOpen` nor a `rawClose`, or contains a successful
`rawOpen` after which there is neither. -/
theorem ownership_held_split (l : List RawCall) (held : Bool)
    (h : ownership held l = some true) :
    (held = true ∧ RawCall.rawClose ∉ l ∧ ∀ n r, RawCall.rawOpen n r ∉ l) ∨
    ∃ p1 name p2, l = p1 ++ RawCall.rawOpen name true :: p2 ∧
      RawCall.rawClose ∉ p2 ∧ ∀ n r, RawCall.rawOpen n r ∉ p2 := by
  induction l generalizing held with
  | nil =>
    left
    simpa [ownership] using h
  | cons x rest ih =>
    have lift : (∃ p1 name p2, rest = p1 ++ RawCall.rawOpen name true :: p2 ∧
        RawCall.rawClose ∉ p2 ∧ ∀ n r, RawCall.rawOpen n r ∉ p2) →
        ∃ p1 name p2, x :: rest = p1 ++ RawCall.rawOpen name true :: p2 ∧
          RawCall.rawClose ∉ p2 ∧ ∀ n r, RawCall.rawOpen n r ∉ p2 := by
      rintro ⟨p1, name, p2, e, h1, h2⟩
      exact ⟨x :: p1, name, p2, by simp [e], h1, h2⟩
    cases x with
    | rawOpen fn res =>
      cases held with
      | true => simp [ownership] at h
      | false =>
        simp only [ownership, Bool.false_eq_true, if_false] at h
        rcases ih res h with ⟨hres, h1, h2⟩ | hex
        · right
          subst hres
          exact ⟨[], fn, rest, by simp, h1, h2⟩
        · exact Or.inr (lift hex)
    | rawClose =>
      cases held with
      | false => simp [ownership] at h
      | true =>
        simp only [ownership, if_true] at h
        rcases ih false h with ⟨hres, _, _⟩ | hex
        · cases hres
        · exact Or.inr (lift hex)
    | rawRead n r =>
      simp only [ownership] at h
      rcases ih held h with ⟨hres, h1, h2⟩ | hex
      · left
        refine ⟨hres, by simp [h1], ?_⟩
        intro n r
        simp [h2]
      · exact Or.inr (lift hex)
    | rawGetc r =>
      simp only [ownership] at h
      rcases ih held h with ⟨hres, h1, h2⟩ | hex
      · left
        refine ⟨hres, by simp [h1], ?_⟩
        intro n r
        simp [h2]
      · exact Or.inr (lift hex)
    | rawSkip n r =>
      simp only [ownership] at h
      rcases ih held h with ⟨hres, h1, h2⟩ | hex
      · left
        refine ⟨hres, by simp [h1], ?_⟩
        intro n r
        simp [h2]
      · exact Or.inr (lift hex)
    | rawPercentRead r =>
      simp only [ownership] at h
      rcases ih held h with ⟨hres, h1, h2⟩ | hex
      · left
        refine ⟨hres, by simp [h1], ?_⟩
        intro n r
        simp [h2]
      · exact Or.inr (lift hex)

/-- While the storage is held, a legal stretch of history with no `rawClose`
in it ends with the storage still held. -/
theorem ownership_stays_held (l : List RawCall) (b : Bool)
    (h : ownership true l = some b) (hc : RawCall.rawClose ∉ l) : b = true := by
  induction l with
  | nil => simpa [ownership] using h.symm
  | cons x rest ih =>
    cases x with
    | rawOpen fn res => simp [ownership] at h
    | rawClose => simp at hc
    | rawRead n r =>
      simp only [ownership] at h
      exact ih h (fun hm => hc (List.mem_cons_of_mem _ hm))
    | rawGetc r =>
      simp only [ownership] at h
      exact ih h (fun hm => hc (List.mem_cons_of_mem _ hm))
    | rawSkip n r =>
      simp only [ownership] at h
      exact ih h (fun hm => hc (List.mem_cons_of_mem _ hm))
    | rawPercentRead r =>
      simp only [ownership] at h
      exact ih h (fun hm => hc (List.mem_cons_of_mem _ hm))

/-- The state of a legal history after a prefix. -/
theorem ownership_split_at (held b : Bool) (l1 l2 : List RawCall)
    (h : ownership held (l1 ++ l2) = some b) :
    ∃ m, ownership held l1 = some m ∧ ownership m l2 = some b := by
  rw [ownership_append] at h
  cases hm : ownership held l1 with
  | none => simp [hm] at h
  | some m => exact ⟨m, rfl, by simpa [hm] using h⟩

/-- C7, as stated, fails: `m_isOpened` is protected, so a hook can assign it.
Over the backend whose `rawGetc` marks the object closed at the end of the
stream, `open("a"); getc(); open("b")` on a closed instance makes the backend
calls `rawOpen("a")`, `rawGetc()`, `rawOpen("b")`, both opens successful: the
second `rawOpen` follows the first with no `rawClose` between them, and the
storage acquired first is never released. -/
theorem File.release_once_needs_flag :
    (File.run eofBackend { m_isOpened := false, raw := (), log := [] }
        [Call.open_ "a", Call.getc, Call.open_ "b"]).log =
      [RawCall.rawOpen "a" true, RawCall.rawGetc (-1), RawCall.rawOpen "b" true] ∧
    ¬ (∀ pre name mid name2 r post,
      (File.run eofBackend { m_isOpened := false, raw := (), log := [] }
          [Call.open_ "a", Call.getc, Call.open_ "b"]).log =
          pre ++ RawCall.rawOpen name true :: (mid ++ RawCall.rawOpen name2 r :: post) →
        RawCall.rawClose ∈ mid) := by
  refine ⟨by decide, fun h => ?_⟩
  have hmem := h [] "a" [RawCall.rawGetc (-1)] "b" true [] (by decide)
  exact absurd hmem (by decide)

/-- C7, amended: for a backend whose read-family hooks leave `m_isOpened` as
they found it, after any finite sequence of public calls on an instance that
starts closed with nothing logged, the log of backend hooks releases the
storage once per acquisition: every `rawClose` comes after a successful
`rawOpen` with no other `rawClose` between the two; between a successful
`rawOpen` and any later `rawOpen` there is a `rawClose`; and the instance is
open at the end exactly when the last successful `rawOpen` has no `rawClose`
after it. The log is a legal ownership history ending in `isOpened()`. -/
theorem File.release_once (B : Backend σ) (f : File σ) (calls : List Call)
    (hkeep : B.keepsFlag) (hclosed : f.isOpened = false) (hlog : f.log = []) :
    (∀ pre post, (File.run B f calls).log = pre ++ RawCall.rawClose :: post →
      ∃ p1 name p2, pre = p1 ++ RawCall.rawOpen name true :: p2 ∧
        RawCall.rawClose ∉ p2) ∧
    (∀ pre name mid name2 r post,
      (File.run B f calls).log =
          pre ++ RawCall.rawOpen name true :: (mid ++ RawCall.rawOpen name2 r :: post) →
        RawCall.rawClose ∈ mid) ∧
    ((File.run B f calls).isOpened = true ↔
      ∃ pre name post, (File.run B f calls).log = pre ++ RawCall.rawOpen name true :: post ∧
        RawCall.rawClose ∉ post ∧ ∀ n, RawCall.rawOpen n true ∉ post) ∧
    ownership false (File.run B f calls).log = some (File.run B f calls).isOpened := by
  have hc : f.m_isOpened = false := hclosed
  have inv : ownership false (File.run B f calls).log =
      some (File.run B f calls).m_isOpened :=
    ownership_run B hkeep calls f (by rw [hlog, hc]; rfl)
  refine ⟨?_, ?_, ?_, inv⟩
  · intro pre post e
    rw [e] at inv
    obtain ⟨m, hm, hrest⟩ := ownership_split_at _ _ _ _ inv
    cases m with
    | false => simp [ownership] at hrest
    | true =>
      rcases ownership_held_split pre false hm with ⟨hbad, _, _⟩ | ⟨p1, name, p2, e2, h1, _⟩
      · cases hbad
      · exact ⟨p1, name, p2, e2, h1⟩
  · intro pre name mid name2 r post e
    rw [e] at inv
    obtain ⟨m, _, hrest⟩ := ownership_split_at _ _ _ _ inv
    cases m with
    | true => simp [ownership] at hrest
    | false =>
      simp only [ownership, Bool.false_eq_true, if_false] at hrest
      obtain ⟨m2, hm2, hrest2⟩ := ownership_split_at _ _ _ _ hrest
      by_contra hno
      have := ownership_stays_held mid m2 hm2 hno
      subst this
      simp [ownership] at hrest2
  · constructor
    · intro ho
      have ho2 : (File.run B f calls).m_isOpened = true := ho
      rw [ho2] at inv
      rcases ownership_held_split _ false inv with ⟨hbad, _, _⟩ | ⟨p1, name, p2, e2, h1, h2⟩
      · cases hbad
      · exact ⟨p1, name, p2, e2, h1, fun n => h2 n true⟩
    · rintro ⟨pre, name, post, e, h1, _⟩
      rw [e] at inv
      obtain ⟨m, _, hrest⟩ := ownership_split_at _ _ _ _ inv
      cases m with
      | true => simp [ownership] at hrest
      | false =>
        simp only [ownership, Bool.false_eq_true, if_false] at hrest
        exact ownership_stays_held post _ hrest h1

theorem memBackend_keepsFlag : memBackend.keepsFlag := by
  refine ⟨fun _ _ _ => rfl, fun m => ?_, fun m length => ?_, fun _ => rfl⟩
  · simp only [memBackend]
    split <;> rfl
  · simp only [memBackend]
    split <;> rfl

/-- Instance of C7 amended: no hook of the in-memory backend assigns the flag;
open `"ab"`, read a byte, fail to open the empty name, close, open `"c"` on
the closed in-memory instance: the log is a legal ownership history and the
instance ends open. -/
theorem File.release_once_witness :
    (File.run memBackend memClosed
        [Call.open_ "ab", Call.getc, Call.open_ "", Call.close, Call.open_ "c"]).log =
      [RawCall.rawOpen "ab" true, RawCall.rawGetc 97, RawCall.rawClose,
        RawCall.rawOpen "" false, RawCall.rawOpen "c" true] ∧
    ownership false (File.run memBackend memClosed
        [Call.open_ "ab", Call.getc, Call.open_ "", Call.close, Call.open_ "c"]).log =
      some (File.run memBackend memClosed
        [Call.open_ "ab", Call.getc, Call.open_ "", Call.close, Call.open_ "c"]).isOpened :=
  ⟨by decide,
    (File.release_once memBackend memClosed
      [Call.open_ "ab", Call.getc, Call.open_ "", Call.close, Call.open_ "c"]
      memBackend_keepsFlag rfl rfl).2.2.2⟩

/-! ## File: how many bytes `read` reports -/

/-- C10, as stated, fails: over the backend whose `rawRead` reports one byte
more than requested, `read` on an open instance with length 0 returns 1. -/
theorem File.read_over_length :
    (File.read overBackend { m_isOpened := true, raw := (), log := [] } [] 0).1 = 1 ∧
      ¬ ((File.read overBackend { m_isOpened := true, raw := (), log := [] } [] 0).1 ≤ 0) := by
  decide

/-- C10, amended: `read` returns 0 on a closed instance and on an open one
exactly the count the backend's `rawRead` reports, whatever that count is; so
it returns at most `length` whenever that report is at most `length`, in
particular for a backend whose `rawRead` never reports more than it was asked
for. -/
theorem File.read_le_length (B : Backend σ) (f : File σ) (buffer : List Nat)
    (length : Nat) :
    (f.isOpened = false → (File.read B f buffer length).1 = 0) ∧
    (f.isOpened = true →
      (File.read B f buffer length).1 = (B.rawRead f.members buffer length).2.2) ∧
    ((B.rawRead f.members buffer length).2.2 ≤ length →
      (File.read B f buffer length).1 ≤ length) ∧
    ((∀ m buf n, (B.rawRead m buf n).2.2 ≤ n) →
      (File.read B f buffer length).1 ≤ length) := by
  cases hf : f.m_isOpened
  · simp [File.read, File.isOpened, hf]
  · refine ⟨by simp [File.isOpened, hf], fun _ => by simp [File.read, hf], fun h => ?_,
      fun h => ?_⟩
    · simpa [File.read, hf] using h
    · simpa [File.read, hf] using h f.members buffer length

theorem memBackend_rawRead_le (m : Members MemState) (buf : List Nat) (n : Nat) :
    (memBackend.rawRead m buf n).2.2 ≤ n := by
  simp only [memBackend, List.length_take]
  exact Nat.min_le_left _ _

/-- Instance of C10 amended: the in-memory backend never reports more than
asked, and reading 2 bytes from the open instance returns 2; over the backend
that reports one byte too many, `read` still returns exactly the report. -/
theorem File.read_le_length_witness :
    (File.read memBackend memOpened [0, 0, 0, 0] 2).1 ≤ 2 ∧
      (File.read memBackend memOpened [0, 0, 0, 0] 2).1 = 2 ∧
      (File.read overBackend { m_isOpened := true, raw := (), log := [] } [] 0).1 =
        (overBackend.rawRead { m_isOpened := true, raw := () } [] 0).2.2 :=
  ⟨(File.read_le_length memBackend memOpened [0, 0, 0, 0] 2).2.2.2 memBackend_rawRead_le,
    by decide,
    (File.read_le_length overBackend { m_isOpened := true, raw := (), log := [] } [] 0).2.1
      rfl⟩

end trace

namespace glstate

/-! ## Nesting of call sequences -/

theorem nesting_append (st : List Frame) (a b : List JsonCall) :
    nesting st (a ++ b) = (nesting st a).bind (fun st1 => nesting st1 b) := by
  induction a generalizing st with
  | nil => simp [nesting]
  | cons x rest ih =>
    cases x <;> rcases st with _ | ⟨f, st⟩ <;> try cases f
    all_goals simp [nesting, ih]

theorem balanced_object {a : List JsonCall} (ha : Balanced a) :
    Balanced (JsonCall.beginObject :: (a ++ [JsonCall.endObject])) := by
  intro st
  simp [nesting, nesting_append, ha (Frame.object :: st)]

/-- Frames left open inside an object leave the object open as well. -/
theorem leftOpen_object {a c : JSONWriter} (h : LeftOpen a.beginObject c) : LeftOpen a c := by
  obtain ⟨y, extra, rfl, _, hy⟩ := h
  refine ⟨JsonCall.beginObject :: y, extra ++ [Frame.object],
    by simp [JSONWriter.beginObject], by simp, fun st => ?_⟩
  simp [nesting, hy]

/-! ## Composition of dumps -/

/-- The three ways `dumpReadBufferImage` ends: the allocation throws after the
eight members; or it is granted for a count that a product wrapped to; or the
whole image object is written. -/
theorem dumpReadBufferImage_outcome (E : Env) (json : JSONWriter) (width height : GLint)
    (format : GLenum) (internalFormat : GLint) (s : GLState) :
    (newThrows E (wrapInt32 (width * height * E.gl_format_channels format)) = true →
      dumpReadBufferImage E json width height format internalFormat s =
        Outcome.threw (wrapInt32 (width * height * E.gl_format_channels format))
          (json ++ imageHead width height 1 (E.enumToString internalFormat)
            (E.gl_format_channels format)) s) ∧
    (newThrows E (wrapInt32 (width * height * E.gl_format_channels format)) = false →
      ∀ product, firstOverflow width [height, E.gl_format_channels format] = some product →
      dumpReadBufferImage E json width height format internalFormat s =
        Outcome.undefined product) ∧
    (newThrows E (wrapInt32 (width * height * E.gl_format_channels format)) = false →
      firstOverflow width [height, E.gl_format_channels format] = none →
      dumpReadBufferImage E json width height format internalFormat s =
        Outcome.returned
          (json ++ imageObject E width height 1 (E.enumToString internalFormat)
            (E.gl_format_channels format)
            (glReadPixels ((Context.ctor s).resetPixelPackState s).2 0 0 width height format
              GL_UNSIGNED_BYTE).1,
           ((Context.ctor s).resetPixelPackState s).1.restorePixelPackState
            (glReadPixels ((Context.ctor s).resetPixelPackState s).2 0 0 width height format
              GL_UNSIGNED_BYTE).2)) := by
  refine ⟨fun h => ?_, fun h product hp => ?_, fun h hp => ?_⟩
  · simp [dumpReadBufferImage, h, imageHead, JSONWriter.beginObject,
      JSONWriter.writeStringMember, JSONWriter.writeNumberMember, JSONWriter.writeBoolMember]
  · simp [dumpReadBufferImage, h, hp]
  · simp [dumpReadBufferImage, h, hp, imageObject, imageHead, JSONWriter.beginObject,
      JSONWriter.endObject, JSONWriter.beginMember, JSONWriter.endMember,
      JSONWriter.writeStringMember, JSONWriter.writeNumberMember, JSONWriter.writeBoolMember,
      JSONWriter.writeBase64]

/-- The ways `dumpActiveTextureLevel` ends: nothing is written for a level
without a valid description; otherwise the member `label` is opened and the
allocation throws after the eight members, or it is granted for a count that
a product wrapped to, or the whole image object is written. -/
theorem dumpActiveTextureLevel_outcome (E : Env) (json : JSONWriter) (context : Context)
    (target : GLenum) (level : GLint) (s : GLState) :
    ((getActiveTextureLevelDesc context target level ImageDesc.ctor s).1 = false →
      dumpActiveTextureLevel E json context target level s =
        Outcome.returned (json, context, (getActiveTextureLevelDesc context target level ImageDesc.ctor s).2.2)) ∧
    ((getActiveTextureLevelDesc context target level ImageDesc.ctor s).1 = true →
      ∃ label pixels g1 r,
        (newThrows E (wrapInt32 ((getActiveTextureLevelDesc context target level ImageDesc.ctor s).2.1.depth * (getActiveTextureLevelDesc context target level ImageDesc.ctor s).2.1.width * (getActiveTextureLevelDesc context target level ImageDesc.ctor s).2.1.height * 4)) =
            true →
          dumpActiveTextureLevel E json context target level s =
            Outcome.threw (wrapInt32 ((getActiveTextureLevelDesc context target level ImageDesc.ctor s).2.1.depth * (getActiveTextureLevelDesc context target level ImageDesc.ctor s).2.1.width * (getActiveTextureLevelDesc context target level ImageDesc.ctor s).2.1.height * 4))
              (json ++ JsonCall.beginMember label ::
                imageHead (getActiveTextureLevelDesc context target level ImageDesc.ctor s).2.1.width (getActiveTextureLevelDesc context target level ImageDesc.ctor s).2.1.height (getActiveTextureLevelDesc context target level ImageDesc.ctor s).2.1.depth
                  (E.enumToString (getActiveTextureLevelDesc context target level ImageDesc.ctor s).2.1.internalFormat) 4) g1) ∧
        (newThrows E (wrapInt32 ((getActiveTextureLevelDesc context target level ImageDesc.ctor s).2.1.depth * (getActiveTextureLevelDesc context target level ImageDesc.ctor s).2.1.width * (getActiveTextureLevelDesc context target level ImageDesc.ctor s).2.1.height * 4)) =
            false →
          ∀ product,
            firstOverflow (getActiveTextureLevelDesc context target level ImageDesc.ctor s).2.1.depth [(getActiveTextureLevelDesc context target level ImageDesc.ctor s).2.1.width, (getActiveTextureLevelDesc context target level ImageDesc.ctor s).2.1.height, 4] = some product →
            dumpActiveTextureLevel E json context target level s =
              Outcome.undefined product) ∧
        (newThrows E (wrapInt32 ((getActiveTextureLevelDesc context target level ImageDesc.ctor s).2.1.depth * (getActiveTextureLevelDesc context target level ImageDesc.ctor s).2.1.width * (getActiveTextureLevelDesc context target level ImageDesc.ctor s).2.1.height * 4)) =
            false →
          firstOverflow (getActiveTextureLevelDesc context target level ImageDesc.ctor s).2.1.depth [(getActiveTextureLevelDesc context target level ImageDesc.ctor s).2.1.width, (getActiveTextureLevelDesc context target level ImageDesc.ctor s).2.1.height, 4] = none →
          dumpActiveTextureLevel E json context target level s =
            Outcome.returned
              (json ++ JsonCall.beginMember label ::
                imageObject E (getActiveTextureLevelDesc context target level ImageDesc.ctor s).2.1.width (getActiveTextureLevelDesc context target level ImageDesc.ctor s).2.1.height (getActiveTextureLevelDesc context target level ImageDesc.ctor s).2.1.depth
                  (E.enumToString (getActiveTextureLevelDesc context target level ImageDesc.ctor s).2.1.internalFormat) 4 pixels, r))) := by
  constructor
  · intro h
    simp [dumpActiveTextureLevel, h]
  · intro h
    refine ⟨textureLabel E (glGetIntegerv (getActiveTextureLevelDesc context target level ImageDesc.ctor s).2.2 GL_ACTIVE_TEXTURE GL_TEXTURE0).1 target level,
      (glGetTexImage (context.resetPixelPackState
        (glGetIntegerv (getActiveTextureLevelDesc context target level ImageDesc.ctor s).2.2 GL_ACTIVE_TEXTURE GL_TEXTURE0).2).2 target level GL_RGBA
          GL_UNSIGNED_BYTE).1,
      (glGetIntegerv (getActiveTextureLevelDesc context target level ImageDesc.ctor s).2.2 GL_ACTIVE_TEXTURE GL_TEXTURE0).2,
      ((context.resetPixelPackState
        (glGetIntegerv (getActiveTextureLevelDesc context target level ImageDesc.ctor s).2.2 GL_ACTIVE_TEXTURE GL_TEXTURE0).2).1,
       (context.resetPixelPackState
        (glGetIntegerv (getActiveTextureLevelDesc context target level ImageDesc.ctor s).2.2 GL_ACTIVE_TEXTURE GL_TEXTURE0).2).1.restorePixelPackState
        (glGetTexImage (context.resetPixelPackState
          (glGetIntegerv (getActiveTextureLevelDesc context target level ImageDesc.ctor s).2.2 GL_ACTIVE_TEXTURE GL_TEXTURE0).2).2 target level GL_RGBA
            GL_UNSIGNED_BYTE).2),
      fun hn => ?_, fun hn product hp => ?_, fun hn hp => ?_⟩
    · simp only [dumpActiveTextureLevel, h, hn]
      simp [imageHead, JSONWriter.beginObject, JSONWriter.beginMember,
        JSONWriter.writeStringMember, JSONWriter.writeNumberMember,
        JSONWriter.writeBoolMember]
    · simp only [dumpActiveTextureLevel, h, hn, hp]
      simp
    · simp only [dumpActiveTextureLevel, h, hn, hp]
      simp [imageObject, imageHead, JSONWriter.beginObject, JSONWriter.endObject,
        JSONWriter.beginMember, JSONWriter.endMember, JSONWriter.writeStringMember,
        JSONWriter.writeNumberMember, JSONWriter.writeBoolMember, JSONWriter.writeBase64]

/-! ## Texture dump: the label member is left open -/

/-- C11 fails on the code: `dumpActiveTextureLevel` opens the member `label` and
never closes it. Whenever the level has a valid description, the call returns
if the byte count of the level fits an `int` and the allocation of the pixel
buffer is granted, and whenever it returns its calls leave exactly one member
open on top of the frames that were open before. On the desktop context with
one 1x1 two-dimensional texture bound, the calls of `dumpTextures` (fuel 2 is
enough for the loop over the levels) are therefore not well nested: its final
`endObject` meets that open member. -/
theorem dumpTextures_label_left_open :
    (∀ (E : Env) (json : JSONWriter) (context : Context) (target : GLenum) (level : GLint)
      (s : GLState) (st : List Frame),
      (getActiveTextureLevelDesc context target level ImageDesc.ctor s).1 = true →
      (newThrows E (wrapInt32 ((getActiveTextureLevelDesc context target level ImageDesc.ctor s).2.1.depth * (getActiveTextureLevelDesc context target level ImageDesc.ctor s).2.1.width * (getActiveTextureLevelDesc context target level ImageDesc.ctor s).2.1.height * 4)) =
          false →
        firstOverflow (getActiveTextureLevelDesc context target level ImageDesc.ctor s).2.1.depth [(getActiveTextureLevelDesc context target level ImageDesc.ctor s).2.1.width, (getActiveTextureLevelDesc context target level ImageDesc.ctor s).2.1.height, 4] = none →
        ∃ r, dumpActiveTextureLevel E json context target level s = Outcome.returned r) ∧
      (∀ r, dumpActiveTextureLevel E json context target level s = Outcome.returned r →
        ∃ calls, r.1 = json ++ calls ∧ nesting st calls = some (Frame.member :: st))) ∧
    (dumpActiveTextureLevel exampleEnv [] { ES := false, savedPackState := 0 }
      GL_TEXTURE_2D 0 textureState).value?.map (fun r => nesting [] r.1) =
        some (some [Frame.member]) ∧
    (dumpTextures exampleEnv 2 [] { ES := false, savedPackState := 0 } textureState).value?.map
      (fun r => nesting [] r.1) = some none ∧
    (dumpTextures exampleEnv 2 [] { ES := false, savedPackState := 0 } textureState).value?.map
      (fun r => wellNested r.1) = some false := by
  refine ⟨?_, by decide, by decide, by decide⟩
  intro E json context target level s st h
  obtain ⟨label, pixels, g1, r0, hthrew, hundef, hret⟩ :=
    (dumpActiveTextureLevel_outcome E json context target level s).2 h
  refine ⟨fun hn hp => ⟨_, hret hn hp⟩, fun r hr => ?_⟩
  cases hn : newThrows E (wrapInt32 ((getActiveTextureLevelDesc context target level ImageDesc.ctor s).2.1.depth * (getActiveTextureLevelDesc context target level ImageDesc.ctor s).2.1.width * (getActiveTextureLevelDesc context target level ImageDesc.ctor s).2.1.height * 4)) with
  | true =>
    rw [hthrew hn] at hr
    cases hr
  | false =>
    cases hp : firstOverflow (getActiveTextureLevelDesc context target level ImageDesc.ctor s).2.1.depth [(getActiveTextureLevelDesc context target level ImageDesc.ctor s).2.1.width, (getActiveTextureLevelDesc context target level ImageDesc.ctor s).2.1.height, 4] with
    | some product =>
      rw [hundef hn product hp] at hr
      cases hr
    | none =>
      rw [hret hn hp] at hr
      cases hr
      exact ⟨_, rfl, by simp [nesting, imageObject, imageHead]⟩

/-! ## Drawable dump: the read buffer is saved after it was changed -/

/-- C12 fails on the code: on the desktop context drawing to a 1x1 window with
draw buffer `GL_BACK` and read buffer `GL_FRONT`, `GL_READ_BUFFER` is
`GL_FRONT` on entry to `dumpDrawableImages`, the call returns, and
`GL_READ_BUFFER` is `GL_BACK` on return. -/
theorem dumpDrawableImages_changes_read_buffer :
    (glGetIntegerv windowState GL_READ_BUFFER GL_NONE).1 = GL_FRONT ∧
    (dumpDrawableImages exampleEnv [] { ES := false, savedPackState := 0 }
      windowState).value?.map (fun r => (glGetIntegerv r.2 GL_READ_BUFFER GL_NONE).1) =
        some GL_BACK := by
  decide

/-! ## Framebuffer dump: the record is well nested when the dump returns -/

/-- C14 fails as worded: an image whose byte count does not fit an `int` is cut
short. For a 32768x32768 read buffer in format `GL_RGB` (allocator granting
every size) `dumpReadBufferImage` writes `beginObject` and the eight members
up to `__channels__`, then `new GLubyte[...]` throws for the wrapped count
-1073741824: there is no member `__data__` and the object stays open. For a
1024x1024x512 texture level `dumpActiveTextureLevel` does the same after the
member `label`, the count wrapping to -2147483648. For a 65536x65536 read
buffer the count wraps to 0, which is granted: the call does not return an
image object in a defined way either. -/
theorem image_object_cut_short :
    (dumpReadBufferImage exampleEnv [] 32768 32768 GL_RGB GL_NONE desktop).value?.map
      (fun r => r.1) = none ∧
    (dumpReadBufferImage exampleEnv [] 32768 32768 GL_RGB GL_NONE desktop).thrown? =
      some (-1073741824, imageHead 32768 32768 1 "GL_NONE" 3) ∧
    nesting [] (imageHead 32768 32768 1 "GL_NONE" 3) = some [Frame.object] ∧
    (dumpActiveTextureLevel exampleEnv [] { ES := false, savedPackState := 0 } GL_TEXTURE_3D 0
      largeTextureState).value?.map (fun r => r.1) = none ∧
    (dumpActiveTextureLevel exampleEnv [] { ES := false, savedPackState := 0 } GL_TEXTURE_3D 0
      largeTextureState).thrown?.map (fun t => (t.1, t.2.drop 1)) =
      some (-2147483648, imageHead 1024 1024 512 "GL_ENUM" 4) ∧
    (dumpReadBufferImage exampleEnv [] 65536 65536 GL_RGB GL_NONE desktop).undefined? =
      some 4294967296 := by
  refine ⟨?_, ?_, by decide, by decide, by decide, ?_⟩
  · rw [(dumpReadBufferImage_outcome exampleEnv [] 32768 32768 GL_RGB GL_NONE desktop).1
      (by decide)]
    rfl
  · rw [(dumpReadBufferImage_outcome exampleEnv [] 32768 32768 GL_RGB GL_NONE desktop).1
      (by decide)]
    rfl
  · rw [(dumpReadBufferImage_outcome exampleEnv [] 65536 65536 GL_RGB GL_NONE desktop).2.1
      (by decide) 4294967296 (by decide)]
    rfl

/-- C14, amended: the image objects of `dumpActiveTextureLevel` and of
`dumpReadBufferImage` have one shape, `imageObject`, whenever the element
count of the pixel buffer (depth x width x height x 4, or width x height x
channels) fits an `int` and the allocation does not throw: one object with
`__class__ = "image"`, `__width__`, `__height__`, `__depth__`, `__format__`,
`__type__ = "uint8"`, `__normalized__ = true`, `__channels__` in this order,
then the member `__data__` with one base64 blob, which is the output of the
pixel encoder for the same width, height and channel count. When the
allocation throws for the count wrapped to 32 bits, the call is left with the
sink holding the object up to `__channels__` only (`imageHead`); when it is
granted although a product did not fit, the outcome is undefined. A texture
level with a valid description is written with 4 channels after the member
`label` is opened, a level without one writes nothing and returns; a read
buffer is written with depth 1 and the channel count of `format`. -/
theorem image_object_shape (E : Env) :
    (∀ (json : JSONWriter) (context : Context) (target : GLenum) (level : GLint) (s : GLState),
      (getActiveTextureLevelDesc context target level ImageDesc.ctor s).1 = true →
      ∃ label,
        (newThrows E (wrapInt32 ((getActiveTextureLevelDesc context target level ImageDesc.ctor s).2.1.depth * (getActiveTextureLevelDesc context target level ImageDesc.ctor s).2.1.width * (getActiveTextureLevelDesc context target level ImageDesc.ctor s).2.1.height * 4)) =
            false →
          firstOverflow (getActiveTextureLevelDesc context target level ImageDesc.ctor s).2.1.depth [(getActiveTextureLevelDesc context target level ImageDesc.ctor s).2.1.width, (getActiveTextureLevelDesc context target level ImageDesc.ctor s).2.1.height, 4] = none →
          ∃ pixels r,
            dumpActiveTextureLevel E json context target level s =
              Outcome.returned
                (json ++ JsonCall.beginMember label ::
                  imageObject E (getActiveTextureLevelDesc context target level ImageDesc.ctor s).2.1.width (getActiveTextureLevelDesc context target level ImageDesc.ctor s).2.1.height (getActiveTextureLevelDesc context target level ImageDesc.ctor s).2.1.depth
                    (E.enumToString (getActiveTextureLevelDesc context target level ImageDesc.ctor s).2.1.internalFormat) 4 pixels, r)) ∧
        (newThrows E (wrapInt32 ((getActiveTextureLevelDesc context target level ImageDesc.ctor s).2.1.depth * (getActiveTextureLevelDesc context target level ImageDesc.ctor s).2.1.width * (getActiveTextureLevelDesc context target level ImageDesc.ctor s).2.1.height * 4)) =
            true →
          ∃ g,
            dumpActiveTextureLevel E json context target level s =
              Outcome.threw (wrapInt32 ((getActiveTextureLevelDesc context target level ImageDesc.ctor s).2.1.depth * (getActiveTextureLevelDesc context target level ImageDesc.ctor s).2.1.width * (getActiveTextureLevelDesc context target level ImageDesc.ctor s).2.1.height * 4))
                (json ++ JsonCall.beginMember label ::
                  imageHead (getActiveTextureLevelDesc context target level ImageDesc.ctor s).2.1.width (getActiveTextureLevelDesc context target level ImageDesc.ctor s).2.1.height (getActiveTextureLevelDesc context target level ImageDesc.ctor s).2.1.depth
                    (E.enumToString (getActiveTextureLevelDesc context target level ImageDesc.ctor s).2.1.internalFormat) 4) g) ∧
        (newThrows E (wrapInt32 ((getActiveTextureLevelDesc context target level ImageDesc.ctor s).2.1.depth * (getActiveTextureLevelDesc context target level ImageDesc.ctor s).2.1.width * (getActiveTextureLevelDesc context target level ImageDesc.ctor s).2.1.height * 4)) =
            false →
          ∀ product,
            firstOverflow (getActiveTextureLevelDesc context target level ImageDesc.ctor s).2.1.depth [(getActiveTextureLevelDesc context target level ImageDesc.ctor s).2.1.width, (getActiveTextureLevelDesc context target level ImageDesc.ctor s).2.1.height, 4] = some product →
            dumpActiveTextureLevel E json context target level s =
              Outcome.undefined product)) ∧
    (∀ (json : JSONWriter) (context : Context) (target : GLenum) (level : GLint) (s : GLState),
      (getActiveTextureLevelDesc context target level ImageDesc.ctor s).1 = false →
      ∃ g, dumpActiveTextureLevel E json context target level s =
        Outcome.returned (json, context, g)) ∧
    (∀ (json : JSONWriter) (width height : GLint) (format : GLenum) (internalFormat : GLint)
      (s : GLState),
      (newThrows E (wrapInt32 (width * height * E.gl_format_channels format)) = false →
        firstOverflow width [height, E.gl_format_channels format] = none →
        ∃ pixels g,
          dumpReadBufferImage E json width height format internalFormat s =
            Outcome.returned
              (json ++ imageObject E width height 1 (E.enumToString internalFormat)
                (E.gl_format_channels format) pixels, g)) ∧
      (newThrows E (wrapInt32 (width * height * E.gl_format_channels format)) = true →
        dumpReadBufferImage E json width height format internalFormat s =
          Outcome.threw (wrapInt32 (width * height * E.gl_format_channels format))
            (json ++ imageHead width height 1 (E.enumToString internalFormat)
              (E.gl_format_channels format)) s) ∧
      (newThrows E (wrapInt32 (width * height * E.gl_format_channels format)) = false →
        ∀ product, firstOverflow width [height, E.gl_format_channels format] = some product →
        dumpReadBufferImage E json width height format internalFormat s =
          Outcome.undefined product)) := by
  refine ⟨?_, ?_, ?_⟩
  · intro json context target level s h
    obtain ⟨label, pixels, g1, r, hthrew, hundef, hret⟩ :=
      (dumpActiveTextureLevel_outcome E json context target level s).2 h
    exact ⟨label, fun hn hp => ⟨pixels, r, hret hn hp⟩, fun hn => ⟨g1, hthrew hn⟩, hundef⟩
  · intro json context target level s h
    exact ⟨_, (dumpActiveTextureLevel_outcome E json context target level s).1 h⟩
  · intro json width height format internalFormat s
    obtain ⟨hthrew, hundef, hret⟩ :=
      dumpReadBufferImage_outcome E json width height format internalFormat s
    exact ⟨fun hn hp => ⟨_, _, hret hn hp⟩, hthrew, hundef⟩

/-- Instance of C14: level 0 of the 1x1 texture of `textureState` has a valid
description and its four bytes are granted, so its dump returns with the
member `label` followed by an image object with 4 channels. -/
theorem image_object_shape_witness :
    ∃ label pixels r,
      dumpActiveTextureLevel exampleEnv [] { ES := false, savedPackState := 0 }
        GL_TEXTURE_2D 0 textureState =
        Outcome.returned
          (JsonCall.beginMember label :: imageObject exampleEnv 1 1 1 "GL_ENUM" 4 pixels, r) := by
  obtain ⟨label, h, _⟩ := (image_object_shape exampleEnv).1 []
    { ES := false, savedPackState := 0 } GL_TEXTURE_2D 0 textureState (by decide)
  obtain ⟨pixels, r, h⟩ := h (by decide) (by decide)
  refine ⟨label, pixels, r, ?_⟩
  rw [h]
  have hd : (getActiveTextureLevelDesc { ES := false, savedPackState := 0 } GL_TEXTURE_2D 0
      ImageDesc.ctor textureState).2.1 =
      { width := 1, height := 1, depth := 1, internalFormat := GL_RGBA } := by
    decide
  rw [hd]
  rfl

/-! ## Framebuffer dump: the renderbuffer binding after a multisampled copy -/

/-- C15 fails on the code: with framebuffer object 1 bound, its color
attachment a renderbuffer with 4 samples, and renderbuffer 2 bound to
`GL_RENDERBUFFER` on entry, `dumpFramebuffer` returns with nothing bound to
`GL_RENDERBUFFER`; the two framebuffer bindings are back at 1. With 0 samples
(no temporary copy) the renderbuffer binding is back at 2. -/
theorem dumpFramebuffer_loses_renderbuffer_binding :
    (fboState 4).renderbufferBinding = 2 ∧
    (dumpFramebuffer exampleEnv [] { ES := false, savedPackState := 0 } 0 (fun _ => 0)
      (fboState 4)).value?.map (fun r => r.2.renderbufferBinding) = some 0 ∧
    (dumpFramebuffer exampleEnv [] { ES := false, savedPackState := 0 } 0 (fun _ => 0)
      (fboState 4)).value?.map (fun r => r.2.readFramebuffer) = some 1 ∧
    (dumpFramebuffer exampleEnv [] { ES := false, savedPackState := 0 } 0 (fun _ => 0)
      (fboState 4)).value?.map (fun r => r.2.drawFramebuffer) = some 1 ∧
    (dumpFramebuffer exampleEnv [] { ES := false, savedPackState := 0 } 0 (fun _ => 0)
      (fboState 0)).value?.map (fun r => r.2.renderbufferBinding) = some 2 := by
  decide

/-! ## downsampledFramebuffer: the renderbuffers it generates -/

@[simp] theorem setError_renderbufferNames (s : GLState) (e : GLenum) :
    (setError s e).renderbufferNames = s.renderbufferNames := by
  unfold setError
  split <;> rfl

@[simp] theorem glBindFramebuffer_renderbufferNames (s : GLState) (target : GLenum)
    (fbo : GLint) : (glBindFramebuffer s target fbo).renderbufferNames = s.renderbufferNames := by
  unfold glBindFramebuffer
  split_ifs <;> simp

@[simp] theorem glBindRenderbuffer_renderbufferNames (s : GLState) (target : GLenum)
    (rb : GLint) : (glBindRenderbuffer s target rb).renderbufferNames = s.renderbufferNames := by
  unfold glBindRenderbuffer
  split_ifs <;> simp

@[simp] theorem glGetRenderbufferParameteriv_renderbufferNames (s : GLState)
    (target pname : GLenum) (v : GLint) :
    (glGetRenderbufferParameteriv s target pname v).2.renderbufferNames =
      s.renderbufferNames := by
  unfold glGetRenderbufferParameteriv
  split_ifs <;> simp

@[simp] theorem getBoundRenderbufferDesc_renderbufferNames (context : Context)
    (desc : ImageDesc) (s : GLState) :
    (getBoundRenderbufferDesc context desc s).2.2.renderbufferNames = s.renderbufferNames := by
  simp [getBoundRenderbufferDesc]

@[simp] theorem glRenderbufferStorage_renderbufferNames (s : GLState) (target : GLenum)
    (internalformat : GLenum) (width height : GLint) :
    (glRenderbufferStorage s target internalformat width height).renderbufferNames =
      s.renderbufferNames := by
  unfold glRenderbufferStorage
  split_ifs <;> simp

@[simp] theorem glFramebufferRenderbuffer_renderbufferNames (s : GLState)
    (target attachment renderbuffertarget : GLenum) (rb : GLint) :
    (glFramebufferRenderbuffer s target attachment renderbuffertarget rb).renderbufferNames =
      s.renderbufferNames := by
  unfold glFramebufferRenderbuffer
  split
  · simp
  · split_ifs <;> simp [attachRenderbuffer]

@[simp] theorem glDrawBuffer_renderbufferNames (s : GLState) (mode : GLenum) :
    (glDrawBuffer s mode).renderbufferNames = s.renderbufferNames := by
  unfold glDrawBuffer
  split_ifs <;> simp

@[simp] theorem glReadBuffer_renderbufferNames (s : GLState) (mode : GLenum) :
    (glReadBuffer s mode).renderbufferNames = s.renderbufferNames := by
  unfold glReadBuffer
  split_ifs <;> simp

@[simp] theorem glBlitFramebuffer_eq (s : GLState) (a b c d e f g h : GLint)
    (mask filter : GLenum) : glBlitFramebuffer s a b c d e f g h mask filter = s :=
  rfl

@[simp] theorem glGenFramebuffers_renderbufferNames (s : GLState) :
    (glGenFramebuffers s).2.renderbufferNames = s.renderbufferNames :=
  rfl

@[simp] theorem glGenRenderbuffers_renderbufferNames (s : GLState) :
    (glGenRenderbuffers s).2.renderbufferNames =
      (glGenRenderbuffers s).1 :: s.renderbufferNames :=
  rfl

/-- C16: whatever `colorRb`, `depthRb` and `stencilRb` are,
`downsampledFramebuffer` leaves every slot of `rbs` from `*numRbs` on as it
was, so it stores to slots 0, 1 and 2 at most; `*numRbs` is between 1 and 3:
1 with neither a depth nor a stencil renderbuffer, 2 when they are the same
non-zero renderbuffer or exactly one of them is non-zero, 3 when they are
distinct and both non-zero; and the renderbuffers it generated are exactly the
names in the slots below `*numRbs`, one for each. -/
theorem downsampledFramebuffer_count (context : Context) (oldFbo drawbuffer : GLint)
    (colorRb depthRb stencilRb : GLint) (rbs : Nat → GLint) (s : GLState) :
    (1 ≤ (downsampledFramebuffer context oldFbo drawbuffer colorRb depthRb stencilRb rbs
        s).numRbs ∧
      (downsampledFramebuffer context oldFbo drawbuffer colorRb depthRb stencilRb rbs
        s).numRbs ≤ 3) ∧
    (depthRb = 0 ∧ stencilRb = 0 →
      (downsampledFramebuffer context oldFbo drawbuffer colorRb depthRb stencilRb rbs
        s).numRbs = 1) ∧
    ((stencilRb = depthRb ∧ stencilRb ≠ 0) ∨ (depthRb ≠ 0 ∧ stencilRb = 0) ∨
        (depthRb = 0 ∧ stencilRb ≠ 0) →
      (downsampledFramebuffer context oldFbo drawbuffer colorRb depthRb stencilRb rbs
        s).numRbs = 2) ∧
    (stencilRb ≠ depthRb ∧ depthRb ≠ 0 ∧ stencilRb ≠ 0 →
      (downsampledFramebuffer context oldFbo drawbuffer colorRb depthRb stencilRb rbs
        s).numRbs = 3) ∧
    (∀ i : Nat,
      (downsampledFramebuffer context oldFbo drawbuffer colorRb depthRb stencilRb rbs
        s).numRbs.toNat ≤ i →
      (downsampledFramebuffer context oldFbo drawbuffer colorRb depthRb stencilRb rbs
        s).rbs i = rbs i) ∧
    (downsampledFramebuffer context oldFbo drawbuffer colorRb depthRb stencilRb rbs
        s).gl.renderbufferNames =
      ((List.range (downsampledFramebuffer context oldFbo drawbuffer colorRb depthRb
          stencilRb rbs s).numRbs.toNat).map
        (downsampledFramebuffer context oldFbo drawbuffer colorRb depthRb stencilRb rbs
          s).rbs).reverse ++ s.renderbufferNames := by
  by_cases hc : stencilRb = depthRb ∧ stencilRb ≠ 0
  · obtain ⟨h1, h2⟩ := hc
    subst h1
    simp [downsampledFramebuffer, h2, setSlot, List.range_succ]
    intro i hi
    rw [if_neg (by omega), if_neg (by omega)]
  · by_cases hd : depthRb = 0 <;> by_cases hs : stencilRb = 0
    · simp [downsampledFramebuffer, hd, hs, setSlot, List.range_succ]
      intro i hi h0
      omega
    · simp [downsampledFramebuffer, hd, hs, setSlot, List.range_succ]
      intro i hi
      rw [if_neg (by omega), if_neg (by omega)]
    · simp [downsampledFramebuffer, hd, hs, setSlot, List.range_succ]
      intro i hi
      rw [if_neg (by omega), if_neg (by omega)]
    · have hne : stencilRb ≠ depthRb := fun h => hc ⟨h, hs⟩
      simp [downsampledFramebuffer, hd, hs, hne, setSlot, List.range_succ]
      intro i hi
      rw [if_neg (by omega), if_neg (by omega), if_neg (by omega)]

/-- Instance of C16: with distinct non-zero depth and stencil renderbuffers the
count is 3, and slot 3 of the array is left alone. -/
theorem downsampledFramebuffer_count_witness :
    (downsampledFramebuffer { ES := false, savedPackState := 0 } 1 GL_COLOR_ATTACHMENT0 1 5 6
      (fun _ => 0) (fboState 4)).numRbs = 3 ∧
    (downsampledFramebuffer { ES := false, savedPackState := 0 } 1 GL_COLOR_ATTACHMENT0 1 5 6
      (fun _ => 0) (fboState 4)).rbs 3 = 0 :=
  ⟨(downsampledFramebuffer_count { ES := false, savedPackState := 0 } 1 GL_COLOR_ATTACHMENT0
      1 5 6 (fun _ => 0) (fboState 4)).2.2.2.1 (by decide),
    by decide⟩

/-! ## bindTexture -/

theorem bindTextureError_error (s : GLState) (e : GLenum) (target : GLenum) (texture : GLint) :
    bindTextureError { s with error := e } target texture = bindTextureError s target texture :=
  rfl

end glstate
